import Mathlib

/-!
Shallow embedding of the rnes NES emulator core (src/nes.rs, src/bus.rs,
src/cpu.rs, src/ppu.rs, src/mmc.rs, src/rom.rs, src/apu.rs, src/joypad.rs)
with theorems checking the natural-language specification against the code.

Conventions of the embedding:
- machine integers are Nat with explicit wrapping (u8 x = x % 256, u16
  x = x % 65536) at the points where the Rust source performs wrapping
  arithmetic or where release-mode overflow would wrap;
- Rust slice/array indexing that can go out of bounds (a panic in every
  build profile) is modelled with Option, none meaning the panic;
- fallible operations (anyhow Result) and code that panics (unimplemented)
  return Option, none meaning the failure;
- byte arrays are modelled as total functions Nat to Nat whose writes are
  bounds-checked exactly where the Rust indexing is.
-/

namespace Rnes

/-- Wrap to an unsigned 8-bit value, as Rust u8 wrapping arithmetic does. -/
def u8 (n : Nat) : Nat := n % 256

/-- Wrap to an unsigned 16-bit value, as Rust u16 wrapping arithmetic does. -/
def u16 (n : Nat) : Nat := n % 65536

/-- Bit test on a byte value (bitfield single-bit accessors in the source). -/
def bitb (n i : Nat) : Bool := Nat.testBit n i

/-- Set or clear bit i of a byte, as the bitfield setters do on a u8 field. -/
def setBit8 (n i : Nat) (b : Bool) : Nat :=
  if b then n ||| (2 ^ i) else n &&& (255 - 2 ^ i)

/-- Pointwise update of a byte-array-as-function at one index. -/
def upd (f : Nat → Nat) (i v : Nat) : Nat → Nat :=
  fun j => if j = i then v else f j

/-! ## ROM (src/rom.rs)

Only the parts of Rom that the mappers use: the prg() and chr() byte
slices (modelled as functions plus their lengths, with bounds-checked
indexing) and prg_size. -/

structure Rom where
  prgSize : Nat
  chrSize : Nat
  prgData : Nat → Nat
  chrData : Nat → Nat

/-- Indexing into rom.prg(); out of range panics in Rust (Option none). -/
def Rom.prg (r : Rom) (i : Nat) : Option Nat :=
  if i < r.prgSize then some (u8 (r.prgData i)) else none

/-- Indexing into rom.chr(); out of range panics in Rust (Option none). -/
def Rom.chr (r : Rom) (i : Nat) : Option Nat :=
  if i < r.chrSize then some (u8 (r.chrData i)) else none

/-! ## Mappers (src/mmc.rs) -/

/-- Mmc1 register file: 5-bit serial latch with its write counter and the
four configuration registers (Mmc1 struct fields in src/mmc.rs). -/
structure Mmc1Regs where
  latch : Nat
  counter : Nat
  control : Nat
  chrBank0 : Nat
  chrBank1 : Nat
  prgBank : Nat
deriving DecidableEq

/-- The two supported mappers behind the Mmc trait object, each with its
ROM and 8 KiB PRG-RAM (Mmc0 and Mmc1 structs in src/mmc.rs). -/
inductive Mmc
  | mmc0 (rom : Rom) (prgRam : Nat → Nat)
  | mmc1 (rom : Rom) (prgRam : Nat → Nat) (regs : Mmc1Regs)

/-- Mmc1Control bitfield: prg_rom_bank is bits 3..2 (src/mmc.rs). -/
def Mmc1Control.prgRomBank (v : Nat) : Nat := (v >>> 2) &&& 3

/-- Mmc1Control bitfield: chr_rom_bank is bit 4 (src/mmc.rs). -/
def Mmc1Control.chrRomBank (v : Nat) : Bool := bitb v 4

/-- Mmc1PrgBank bitfield: prg_rom_bank is bits 3..0 (src/mmc.rs). -/
def Mmc1PrgBank.prgRomBank (v : Nat) : Nat := v &&& 15

/-- Mmc1::reset_load: clear the serial latch and its counter. -/
def Mmc1Regs.resetLoad (m : Mmc1Regs) : Mmc1Regs :=
  { m with latch := 0, counter := 0 }

/-- Mmc1::copy_register: commit the latch to the register selected by the
(already masked) address; addresses other than 0x0000, 0x2000, 0x4000 and
0x6000 hit the final empty match arm. -/
def Mmc1Regs.copyRegister (m : Mmc1Regs) (addr : Nat) : Mmc1Regs :=
  if addr = 0x0000 then { m with control := m.latch }
  else if addr = 0x2000 then { m with chrBank0 := m.latch }
  else if addr = 0x4000 then { m with chrBank1 := m.latch }
  else if addr = 0x6000 then { m with prgBank := m.latch }
  else m

/-- Mmc1::write_load: bitmatch r??????d takes r from bit 7 and d from bit
0 of the data byte; a set r resets the shifter, otherwise the latch
shifts left by one, takes d as its new low bit, and on the fifth write
the latch is committed via copy_register(addr AND 0b01100000). -/
def Mmc1Regs.writeLoad (m : Mmc1Regs) (addr data : Nat) : Mmc1Regs :=
  let r := (u8 data) >>> 7
  let d := u8 data &&& 1
  if r > 0 then m.resetLoad
  else
    let m := { m with latch := u8 (m.latch <<< 1) }
    let m := if d > 0 then { m with latch := m.latch ||| 1 } else m
    let m := { m with counter := m.counter + 1 }
    if m.counter = 5 then (m.copyRegister (addr &&& 0b01100000)).resetLoad
    else m

/-- Mmc1::read_prg_bank_32kb. -/
def Mmc1Regs.readPrgBank32kb (m : Mmc1Regs) (rom : Rom) (addr : Nat) : Option Nat :=
  let bank := (Mmc1PrgBank.prgRomBank m.prgBank &&& 0b1110) >>> 1
  let offset := addr - 0x8000
  rom.prg (bank * 0x8000 + offset)

/-- Mmc1::read_prg_bank_first_fixed. -/
def Mmc1Regs.readPrgBankFirstFixed (m : Mmc1Regs) (rom : Rom) (addr : Nat) : Option Nat :=
  if 0x8000 ≤ addr ∧ addr ≤ 0xBFFF then rom.prg (addr - 0x8000)
  else if 0xC000 ≤ addr ∧ addr ≤ 0xFFFF then
    rom.prg (Mmc1PrgBank.prgRomBank m.prgBank * 0x4000 + (addr - 0xC000))
  else some 0

/-- Mmc1::read_prg_bank_last_fixed. -/
def Mmc1Regs.readPrgBankLastFixed (m : Mmc1Regs) (rom : Rom) (addr : Nat) : Option Nat :=
  if 0x8000 ≤ addr ∧ addr ≤ 0xBFFF then
    rom.prg (Mmc1PrgBank.prgRomBank m.prgBank * 0x4000 + (addr - 0x8000))
  else if 0xC000 ≤ addr ∧ addr ≤ 0xFFFF then
    rom.prg (rom.prgSize - (0xFFFF - addr))
  else some 0

/-- Mmc1::read_prg_bank: dispatch on the control register's PRG mode. -/
def Mmc1Regs.readPrgBank (m : Mmc1Regs) (rom : Rom) (addr : Nat) : Option Nat :=
  match Mmc1Control.prgRomBank m.control with
  | 0 => m.readPrgBank32kb rom addr
  | 1 => m.readPrgBank32kb rom addr
  | 2 => m.readPrgBankFirstFixed rom addr
  | 3 => m.readPrgBankLastFixed rom addr
  | _ => some 0

/-- Mmc1::read_chr_bank_8kb. -/
def Mmc1Regs.readChrBank8kb (m : Mmc1Regs) (rom : Rom) (addr : Nat) : Option Nat :=
  rom.chr (((m.chrBank0 &&& 0b1110) >>> 1) * 0x2000 + addr)

/-- Mmc1::read_chr_bank_4kb. -/
def Mmc1Regs.readChrBank4kb (m : Mmc1Regs) (rom : Rom) (addr : Nat) : Option Nat :=
  if addr ≤ 0x0FFF then rom.chr (m.chrBank0 * 0x1000 + addr)
  else if 0x1000 ≤ addr ∧ addr ≤ 0x1FFF then rom.chr (m.chrBank1 * 0x1000 + (addr - 0x1000))
  else some 0

/-- Mmc1::read_chr_bank: dispatch on the control register's CHR mode. -/
def Mmc1Regs.readChrBank (m : Mmc1Regs) (rom : Rom) (addr : Nat) : Option Nat :=
  if Mmc1Control.chrRomBank m.control then m.readChrBank4kb rom addr
  else m.readChrBank8kb rom addr

/-- Mmc::read_cpu for both mappers: Mmc0 mirrors 0xC000..0xFFFF down when
the PRG image is at most 16 KiB, PRG-RAM sits at 0x6000..0x7FFF, PRG-ROM
at 0x8000..0xFFFF, and every other address reads 0; Mmc1 dispatches
0x8000..0xFFFF through its banking registers. -/
def Mmc.readCpu (m : Mmc) (addr : Nat) : Option Nat :=
  match m with
  | .mmc0 rom prgRam =>
    let addr := if rom.prgSize ≤ 0x4000 ∧ 0xC000 ≤ addr then addr - 0x4000 else addr
    if 0x6000 ≤ addr ∧ addr ≤ 0x7FFF then some (u8 (prgRam (addr - 0x6000)))
    else if 0x8000 ≤ addr ∧ addr ≤ 0xFFFF then rom.prg (addr - 0x8000)
    else some 0
  | .mmc1 rom prgRam regs =>
    if 0x6000 ≤ addr ∧ addr ≤ 0x7FFF then some (u8 (prgRam (addr - 0x6000)))
    else if 0x8000 ≤ addr ∧ addr ≤ 0xFFFF then regs.readPrgBank rom addr
    else some 0

/-- Mmc::write_cpu for both mappers: Mmc0 stores only into PRG-RAM; Mmc1
additionally feeds 0x8000..0xFFFF writes into the serial loader. -/
def Mmc.writeCpu (m : Mmc) (addr data : Nat) : Mmc :=
  match m with
  | .mmc0 rom prgRam =>
    if 0x6000 ≤ addr ∧ addr ≤ 0x7FFF then .mmc0 rom (upd prgRam (addr - 0x6000) (u8 data))
    else .mmc0 rom prgRam
  | .mmc1 rom prgRam regs =>
    if 0x6000 ≤ addr ∧ addr ≤ 0x7FFF then .mmc1 rom (upd prgRam (addr - 0x6000) (u8 data)) regs
    else if 0x8000 ≤ addr ∧ addr ≤ 0xFFFF then .mmc1 rom prgRam (regs.writeLoad addr data)
    else .mmc1 rom prgRam regs

/-- Mmc::read_ppu: Mmc0 maps CHR-ROM directly at 0x0000..0x1FFF (other
addresses read 0); Mmc1 goes through its CHR banking registers. -/
def Mmc.readPpu (m : Mmc) (addr : Nat) : Option Nat :=
  match m with
  | .mmc0 rom _ => if addr ≤ 0x1FFF then rom.chr addr else some 0
  | .mmc1 rom _ regs => regs.readChrBank rom addr

/-- Mmc::write_ppu is a no-op for both mappers. -/
def Mmc.writePpu (m : Mmc) (_addr _data : Nat) : Mmc := m

/-! ## Joypad (src/joypad.rs) -/

/-- Joypad: strobe flag, current key position 0..7 (JoypadKey as its
discriminant) and the pressed-state map (HashMap with default false). -/
structure Joypad where
  strobe : Bool
  curKey : Nat
  state : Nat → Bool

/-- Joypad::new. -/
def Joypad.init : Joypad := { strobe := false, curKey := 0, state := fun _ => false }

/-- Joypad::read: report the current key; when strobe is low advance to
the next key, wrapping after Right (JoypadKey::next). -/
def Joypad.read (j : Joypad) : Nat × Joypad :=
  let pressed := j.state j.curKey
  let j := if !j.strobe then { j with curKey := (j.curKey + 1) % 8 } else j
  (if pressed then 1 else 0, j)

/-- Joypad::write: strobe is bit 7 of the data; raising it rewinds the
shift position to key A. -/
def Joypad.write (j : Joypad) (data : Nat) : Joypad :=
  let strobe := (u8 data) >>> 7 = 1
  let j := { j with strobe := strobe }
  if strobe then { j with curKey := 0 } else j

/-! ## APU (src/apu.rs)

The Apu struct has no fields; every read accessor returns Ok(0) and every
write accessor returns Ok(()) without storing anything. -/

/-- Value returned by every APU register read in src/apu.rs. -/
def Apu.readReg : Nat := 0

/-! ## PPU bus (src/bus.rs, PpuBus) -/

/-- PpuBus: the shared mapper, 2 KiB name-table VRAM, 32-byte palette RAM,
256-byte OAM, and the FIFO of pending Dma events (the mpsc channel from
the CPU bus; each event carries the copied data and the OAM address). -/
structure PpuBus where
  mmc : Mmc
  events : List (List Nat × Nat)
  vram : Nat → Nat
  palette : Nat → Nat
  oam : Nat → Nat

/-- Mirror folding at the top of PpuBus::read and PpuBus::write, with the
source's arm order (the palette-alias arm is guarded by addr mod 4 = 0). -/
def PpuBus.fold (addr : Nat) : Nat :=
  if 0x2800 ≤ addr ∧ addr ≤ 0x3EFF then 0x2000 + (addr - 0x2800) % 0x0800
  else if 0x3F10 ≤ addr ∧ addr ≤ 0x3F1F ∧ addr % 4 = 0 then addr - 0x0010
  else if 0x3F20 ≤ addr ∧ addr ≤ 0x3FFF then 0x3F00 + addr - 0x3F20
  else if 0x4000 ≤ addr ∧ addr ≤ 0xFFFF then addr - 0x4000
  else addr

/-- PpuBus::read: fold, then dispatch to mapper CHR, VRAM, palette RAM,
defaulting to 0. -/
def PpuBus.read (b : PpuBus) (addr : Nat) : Option Nat :=
  let addr := PpuBus.fold addr
  if addr ≤ 0x1FFF then b.mmc.readPpu addr
  else if 0x2000 ≤ addr ∧ addr ≤ 0x27FF then some (u8 (b.vram (addr - 0x2000)))
  else if 0x3F00 ≤ addr ∧ addr ≤ 0x3F1F then some (u8 (b.palette (addr - 0x3F00)))
  else some 0

/-- PpuBus::write: fold, then dispatch to mapper (no-op), VRAM or palette
RAM, ignoring everything else. -/
def PpuBus.write (b : PpuBus) (addr data : Nat) : PpuBus :=
  let addr := PpuBus.fold addr
  if addr ≤ 0x1FFF then { b with mmc := b.mmc.writePpu addr data }
  else if 0x2000 ≤ addr ∧ addr ≤ 0x27FF then { b with vram := upd b.vram (addr - 0x2000) (u8 data) }
  else if 0x3F00 ≤ addr ∧ addr ≤ 0x3F1F then { b with palette := upd b.palette (addr - 0x3F00) (u8 data) }
  else b

/-- The loop body of the PpuBusEvent::Dma arm of PpuBus::tick: for i in
0..data.len() store data[i] at oam[i + oam_addr]. The destination index
is not reduced modulo 256, so once i + oam_addr reaches 0x100 the store
indexes past the end of the 256-byte OAM array and panics (none). -/
def PpuBus.dmaWriteLoop (oam : Nat → Nat) (oamAddr i : Nat) : List Nat → Option (Nat → Nat)
  | [] => some oam
  | d :: rest =>
    let addr := i + oamAddr
    if addr < 0x100 then PpuBus.dmaWriteLoop (upd oam addr (u8 d)) oamAddr (i + 1) rest
    else none

/-- PpuBus::tick: take one pending event off the channel if any and apply
its Dma transfer to OAM. -/
def PpuBus.tick (b : PpuBus) : Option PpuBus :=
  match b.events with
  | [] => some b
  | (data, oamAddr) :: rest =>
    match PpuBus.dmaWriteLoop b.oam oamAddr 0 data with
    | none => none
    | some oam => some { b with oam := oam, events := rest }

/-- PpuBus::request_dma sends a RequestDma(cpu_addr, oam_addr) event to
the CPU bus; the embedding returns the event for the caller (the CPU bus
owns the receiving end of that channel). -/
def PpuBus.requestDma (cpuAddr oamAddr : Nat) : Nat × Nat := (cpuAddr, oamAddr)

/-! ## PPU (src/ppu.rs) -/

/-- Geometry constants at the top of src/ppu.rs. -/
def VISIBLE_WIDTH : Nat := 256

/-- Visible height constant from src/ppu.rs. -/
def VISIBLE_HEIGHT : Nat := 240

/-- WIDTH constant from src/ppu.rs: dots per scanline as the code wraps
its dot counter. -/
def WIDTH : Nat := 340

/-- HEIGHT constant from src/ppu.rs: scanlines per frame as the code
wraps its line counter. -/
def HEIGHT : Nat := 261

/-- One RGBA framebuffer pixel. -/
structure Rgba where
  r : Nat
  g : Nat
  b : Nat
  a : Nat
deriving DecidableEq

/-- The fixed 64-entry master palette COLORS from src/ppu.rs. -/
def COLORS : List Rgba :=
  [⟨0x80, 0x80, 0x80, 0xFF⟩, ⟨0x00, 0x3D, 0xA6, 0xFF⟩, ⟨0x00, 0x12, 0xB0, 0xFF⟩,
   ⟨0x44, 0x00, 0x96, 0xFF⟩, ⟨0xA1, 0x00, 0x5E, 0xFF⟩, ⟨0xC7, 0x00, 0x28, 0xFF⟩,
   ⟨0xBA, 0x06, 0x00, 0xFF⟩, ⟨0x8C, 0x17, 0x00, 0xFF⟩, ⟨0x5C, 0x2F, 0x00, 0xFF⟩,
   ⟨0x10, 0x45, 0x00, 0xFF⟩, ⟨0x05, 0x4A, 0x00, 0xFF⟩, ⟨0x00, 0x47, 0x2E, 0xFF⟩,
   ⟨0x00, 0x41, 0x66, 0xFF⟩, ⟨0x00, 0x00, 0x00, 0xFF⟩, ⟨0x05, 0x05, 0x05, 0xFF⟩,
   ⟨0x05, 0x05, 0x05, 0xFF⟩, ⟨0xC7, 0xC7, 0xC7, 0xFF⟩, ⟨0x00, 0x77, 0xFF, 0xFF⟩,
   ⟨0x21, 0x55, 0xFF, 0xFF⟩, ⟨0x82, 0x37, 0xFA, 0xFF⟩, ⟨0xEB, 0x2F, 0xB5, 0xFF⟩,
   ⟨0xFF, 0x29, 0x50, 0xFF⟩, ⟨0xFF, 0x22, 0x00, 0xFF⟩, ⟨0xD6, 0x32, 0x00, 0xFF⟩,
   ⟨0xC4, 0x62, 0x00, 0xFF⟩, ⟨0x35, 0x80, 0x00, 0xFF⟩, ⟨0x05, 0x8F, 0x00, 0xFF⟩,
   ⟨0x00, 0x8A, 0x55, 0xFF⟩, ⟨0x00, 0x99, 0xCC, 0xFF⟩, ⟨0x21, 0x21, 0x21, 0xFF⟩,
   ⟨0x09, 0x09, 0x09, 0xFF⟩, ⟨0x09, 0x09, 0x09, 0xFF⟩, ⟨0xFF, 0xFF, 0xFF, 0xFF⟩,
   ⟨0x0F, 0xD7, 0xFF, 0xFF⟩, ⟨0x69, 0xA2, 0xFF, 0xFF⟩, ⟨0xD4, 0x80, 0xFF, 0xFF⟩,
   ⟨0xFF, 0x45, 0xF3, 0xFF⟩, ⟨0xFF, 0x61, 0x8B, 0xFF⟩, ⟨0xFF, 0x88, 0x33, 0xFF⟩,
   ⟨0xFF, 0x9C, 0x12, 0xFF⟩, ⟨0xFA, 0xBC, 0x20, 0xFF⟩, ⟨0x9F, 0xE3, 0x0E, 0xFF⟩,
   ⟨0x2B, 0xF0, 0x35, 0xFF⟩, ⟨0x0C, 0xF0, 0xA4, 0xFF⟩, ⟨0x05, 0xFB, 0xFF, 0xFF⟩,
   ⟨0x5E, 0x5E, 0x5E, 0xFF⟩, ⟨0x0D, 0x0D, 0x0D, 0xFF⟩, ⟨0x0D, 0x0D, 0x0D, 0xFF⟩,
   ⟨0xFF, 0xFF, 0xFF, 0xFF⟩, ⟨0xA6, 0xFC, 0xFF, 0xFF⟩, ⟨0xB3, 0xEC, 0xFF, 0xFF⟩,
   ⟨0xDA, 0xAB, 0xEB, 0xFF⟩, ⟨0xFF, 0xA8, 0xF9, 0xFF⟩, ⟨0xFF, 0xAB, 0xB3, 0xFF⟩,
   ⟨0xFF, 0xD2, 0xB0, 0xFF⟩, ⟨0xFF, 0xEF, 0xA6, 0xFF⟩, ⟨0xFF, 0xF7, 0x9C, 0xFF⟩,
   ⟨0xD7, 0xE8, 0x95, 0xFF⟩, ⟨0xA6, 0xED, 0xAF, 0xFF⟩, ⟨0xA2, 0xF2, 0xDA, 0xFF⟩,
   ⟨0x99, 0xFF, 0xFC, 0xFF⟩, ⟨0xDD, 0xDD, 0xDD, 0xFF⟩, ⟨0x11, 0x11, 0x11, 0xFF⟩,
   ⟨0x11, 0x11, 0x11, 0xFF⟩]

/-- A 2-bit background or sprite color with its transparency tag
(Color struct in src/ppu.rs); the default is value 0, transparent. -/
structure Color where
  value : Nat
  transparent : Bool
deriving DecidableEq

/-- Default Color (Color::default in src/ppu.rs). -/
def Color.default : Color := { value := 0, transparent := true }

/-- Color::to_pixel: index COLORS by the color value; indexing past the
64-entry table panics (none). -/
def Color.toPixel (c : Color) : Option Rgba := COLORS.get? c.value

/-- A sprite-line pixel with its priority and sprite-zero tags (OamColor
struct in src/ppu.rs). -/
structure OamColor where
  color : Color
  behind : Bool
  zero : Bool
deriving DecidableEq

/-- Default OamColor (OamColor::default in src/ppu.rs). -/
def OamColor.default : OamColor := { color := Color.default, behind := false, zero := false }

/-- The PPU mode enum from src/ppu.rs. -/
inductive Mode
  | idle
  | drawing
  | oamScan
  | postIdle
  | vblank
deriving DecidableEq

/-- One parsed OAM entry (Oam struct in src/ppu.rs): sprite_flag is kept
as the raw flags byte; its bitfield accessors are palette_num bits 1..0,
priority bit 5, x_flip bit 6, y_flip bit 7. -/
structure OamEntry where
  y : Nat
  x : Nat
  tileNum : Nat
  spriteFlag : Nat
  zero : Bool

/-- Oam::new from the four OAM bytes at the entry's offset. -/
def OamEntry.ofBytes (b0 b1 b2 b3 : Nat) (zero : Bool) : OamEntry :=
  { y := b0, x := b3, tileNum := b1, spriteFlag := b2, zero := zero }

/-- Oam::large_tile_base_addr: bitmatch tttttttb on the tile number; the
base is 0x1000 when the low bit is set, and the remaining seven bits are
added to it (not multiplied by 16, exactly as the source does). -/
def OamEntry.largeTileBaseAddr (o : OamEntry) : Nat :=
  let b := u8 o.tileNum &&& 1
  let t := u8 o.tileNum >>> 1
  (if b = 1 then 0x1000 else 0x0000) + t

/-- Oam::tile: the second half of a tall sprite uses the next tile index
(a u8 addition that wraps). -/
def OamEntry.tile (o : OamEntry) (row : Nat) : Nat :=
  if 8 ≤ row then u8 (o.tileNum + 1) else o.tileNum

/-- Attribute bitfield: palette(i) is the i-th 2-bit field. -/
def Attribute.palette (v i : Nat) : Nat := (v >>> (2 * i)) &&& 3

/-- Attribute::index_for from src/ppu.rs. -/
def Attribute.indexFor (v tileX tileY : Nat) : Nat :=
  let x := tileX / 2
  let y := tileY / 2
  let xIndex := (x + 1) % 2
  let yIndex := (y + 1) % 2
  Attribute.palette v (3 - xIndex - yIndex * 2)

/-- The Ppu struct from src/ppu.rs: registers, counters, scratch lines
and the framebuffer. The ctrl, mask and status bitfields are kept as raw
bytes; cur_bg, bg_line and oam_line are arrays-as-functions. -/
structure Ppu where
  bus : PpuBus
  ctrl : Nat
  mask : Nat
  status : Nat
  dmaAddr : Nat
  oamAddr : Nat
  buffer : List Nat
  mode : Mode
  x : Nat
  y : Nat
  scrollX : Nat
  scrollY : Nat
  cycles : Nat
  lines : Nat
  curBg : Nat → Color
  bgLine : Nat → Color
  oamLine : Nat → OamColor
  pixels : Nat → Nat → Rgba
  nmi : Bool

/-- Ppu::new over a fresh PpuBus (PpuBus::new fills VRAM with 0xFF and
zeroes palette RAM and OAM; ImageBuffer::new zero-fills the pixels). -/
def Ppu.init (mmc : Mmc) : Ppu :=
  { bus := { mmc := mmc, events := [], vram := fun _ => 0xFF,
             palette := fun _ => 0, oam := fun _ => 0 }
    ctrl := 0, mask := 0, status := 0
    dmaAddr := 0, oamAddr := 0, buffer := [], mode := .idle
    x := 0, y := 0, scrollX := 0, scrollY := 0
    cycles := 0, lines := 0
    curBg := fun _ => Color.default
    bgLine := fun _ => Color.default
    oamLine := fun _ => OamColor.default
    pixels := fun _ _ => ⟨0, 0, 0, 0⟩
    nmi := false }

/-- Ppu::name_table_addr from CTRL bits 1..0. -/
def Ppu.nameTableAddr (p : Ppu) : Nat :=
  match p.ctrl &&& 3 with
  | 0 => 0x2000
  | 1 => 0x2400
  | 2 => 0x2800
  | 3 => 0x2C00
  | _ => 0

/-- Ppu::bg_pattern_table_addr from CTRL bit 4. -/
def Ppu.bgPatternTableAddr (p : Ppu) : Nat :=
  if bitb p.ctrl 4 then 0x1000 else 0x0000

/-- Ppu::oam_pattern_table_addr from CTRL bit 3. -/
def Ppu.oamPatternTableAddr (p : Ppu) : Nat :=
  if bitb p.ctrl 3 then 0x1000 else 0x0000

/-- Wrapping u8 subtraction (release-mode semantics of a plain u8 sub). -/
def u8sub (a b : Nat) : Nat := (u8 a + 256 - u8 b) % 256

/-- Ppu::bg_attr: fetch the attribute byte for a tile; each attribute
byte covers a 4x4 tile block, so the tile coordinates are divided by 4
first. -/
def Ppu.bgAttr (p : Ppu) (tileX tileY : Nat) : Option Nat :=
  let attrX := tileX / 4
  let attrY := tileY / 4
  let baseAddr := p.nameTableAddr + 0x03C0
  let indexAddr := attrX + attrY * 8
  p.bus.read (u16 (baseAddr + indexAddr))

/-- Ppu::bg_tile: fetch the name-table byte for a tile. -/
def Ppu.bgTile (p : Ppu) (tileX tileY : Nat) : Option Nat :=
  let baseAddr := p.nameTableAddr
  let indexAddr := tileX + tileY * 32
  p.bus.read (u16 (baseAddr + indexAddr))

/-- Ppu::to_indexes: fetch the two pattern planes of one tile row and
interleave them bit by bit, most significant pixel first. The source's
bitmatch takes letters a,c,e,g,i,k,m,o from the second (color) plane and
b,d,f,h,j,l,n,p from the first, packs abcdefghijklmnop and then reads
2-bit groups, so index j pairs bit (7-j) of the color plane (high bit)
with bit (7-j) of the bit plane (low bit). -/
def Ppu.toIndexes (p : Ppu) (tile row baseAddr : Nat) : Option (Nat → Nat) := do
  let addr := baseAddr + row + tile * 16
  let bitPlane ← p.bus.read addr
  let colorPlane ← p.bus.read (addr + 8)
  pure fun j => 2 * ((colorPlane >>> (7 - j)) &&& 1) + ((bitPlane >>> (7 - j)) &&& 1)

/-- Ppu::bg_palettes: the four background palette colors for a tile;
entry 0 is transparent. -/
def Ppu.bgPalettes (p : Ppu) (tileX tileY attr : Nat) : Option (Nat → Color) := do
  let addr := 0x3F00 + Attribute.indexFor attr tileX tileY * 0x04
  let v0 ← p.bus.read addr
  let v1 ← p.bus.read (addr + 1)
  let v2 ← p.bus.read (addr + 2)
  let v3 ← p.bus.read (addr + 3)
  pure fun i =>
    if i = 0 then { value := v0, transparent := true }
    else if i = 1 then { value := v1, transparent := false }
    else if i = 2 then { value := v2, transparent := false }
    else { value := v3, transparent := false }

/-- Ppu::sprite_palettes: the four sprite palette colors for a palette
number; entry 0 is transparent. -/
def Ppu.spritePalettes (p : Ppu) (paletteNum : Nat) : Option (Nat → Color) := do
  let addr := 0x3F10 + paletteNum * 0x04
  let v0 ← p.bus.read addr
  let v1 ← p.bus.read (addr + 1)
  let v2 ← p.bus.read (addr + 2)
  let v3 ← p.bus.read (addr + 3)
  pure fun i =>
    if i = 0 then { value := v0, transparent := true }
    else if i = 1 then { value := v1, transparent := false }
    else if i = 2 then { value := v2, transparent := false }
    else { value := v3, transparent := false }

/-- Ppu::to_colors: map the eight 2-bit indexes through the palette. -/
def Ppu.toColors (indexes : Nat → Nat) (palettes : Nat → Color) : Nat → Color :=
  fun i => palettes (indexes i)

/-- Ppu::draw_bg: on every drawing dot, refetch the tile data when the
dot enters a new tile column and store the current background color into
bg_line at x. cx and cy use wrapping u8 adds of the scroll registers. -/
def Ppu.drawBg (p : Ppu) : Option Ppu :=
  if !bitb p.mask 3 then some p
  else
    let cx := u8 (p.x + p.scrollX)
    let cy := u8 (p.y + p.scrollY)
    let col := cx % 8
    let row := cy % 8
    let tileX := cx / 8
    let tileY := cy / 8
    let fetched : Option Ppu :=
      if col = 0 then
        match p.bgAttr tileX tileY with
        | none => none
        | some attr =>
          match p.bgTile tileX tileY with
          | none => none
          | some tile =>
            match p.toIndexes tile row p.bgPatternTableAddr with
            | none => none
            | some indexes =>
              match p.bgPalettes tileX tileY attr with
              | none => none
              | some palettes => some { p with curBg := Ppu.toColors indexes palettes }
      else some p
    match fetched with
    | none => none
    | some q =>
      some { q with bgLine := fun j => if j = q.x then q.curBg col else q.bgLine j }

/-- Ppu::draw_sprite: compute the sprite row (with vertical flip), fetch
its pattern, build the eight OamColor pixels (with horizontal flip) and
copy them into oam_line starting at the sprite's x. -/
def Ppu.drawSprite (p : Ppu) (o : OamEntry) : Option Ppu :=
  let size := if bitb p.ctrl 5 then 16 else 8
  let row := if bitb o.spriteFlag 7 then u8sub size (u8sub p.y o.y) else u8sub p.y o.y
  let tile := o.tile row
  let baseAddr := if bitb p.ctrl 5 then o.largeTileBaseAddr else p.oamPatternTableAddr
  match p.toIndexes tile row baseAddr with
  | none => none
  | some indexes =>
    match p.spritePalettes (o.spriteFlag &&& 3) with
    | none => none
    | some palettes =>
      let colors := Ppu.toColors indexes palettes
      let cx := o.x
      let oamColors : Nat → OamColor := fun i =>
        let j := if bitb o.spriteFlag 6 then 7 - i else i
        { color := colors j, behind := bitb o.spriteFlag 5, zero := o.zero }
      some { p with oamLine := fun j =>
        if cx ≤ j ∧ j < cx + 8 then oamColors (j - cx) else p.oamLine j }

/-- Ppu::draw_sprites: parse OAM entry i and draw it when the current
line intersects it vertically. -/
def Ppu.drawSprites (p : Ppu) (i : Nat) : Option Ppu :=
  if !bitb p.mask 4 then some p
  else
    let size := if bitb p.ctrl 5 then 16 else 8
    let o := OamEntry.ofBytes (p.bus.oam (i * 4)) (p.bus.oam (i * 4 + 1))
      (p.bus.oam (i * 4 + 2)) (p.bus.oam (i * 4 + 3)) (i = 0)
    let curY := p.lines
    let targetY := o.y
    if curY < targetY + size ∧ targetY ≤ curY then p.drawSprite o
    else some p

/-- ImageBuffer::put_pixel: store one pixel; coordinates outside the
256 by 240 buffer panic (none). -/
def Ppu.putPixel (p : Ppu) (x y : Nat) (px : Rgba) : Option Ppu :=
  if x < VISIBLE_WIDTH ∧ y < VISIBLE_HEIGHT then
    some { p with pixels := fun i j =>
      if i = x ∧ j = y then px else p.pixels i j }
  else none

/-- The background step of Ppu::put_pixels: when BG rendering is on and
the BG pixel is not transparent it replaces the backdrop pixel. -/
def Ppu.composeBgPixel (p : Ppu) (bgColor : Color) (pixel : Rgba) : Option Rgba :=
  if bitb p.mask 3 ∧ !bgColor.transparent then bgColor.toPixel else some pixel

/-- The sprite step of Ppu::put_pixels: when sprite rendering is on, a
behind-priority sprite pixel only covers the backdrop (BG enabled or BG
transparent branch of the source) while a front sprite pixel covers
whenever it is opaque. -/
def Ppu.composeSpritePixel (p : Ppu) (bgColor : Color) (spriteColor : OamColor)
    (pixel : Rgba) : Option Rgba :=
  if bitb p.mask 4 then
    if spriteColor.behind then
      if bitb p.mask 3 ∨ bgColor.transparent then spriteColor.color.toPixel
      else some pixel
    else
      if !spriteColor.color.transparent then spriteColor.color.toPixel
      else some pixel
  else some pixel

/-- The sprite-0 step of Ppu::put_pixels: with both layers enabled, the
source sets STATUS bit 6 when the sprite-zero pixel and the BG pixel are
both transparent. -/
def Ppu.applySprite0Hit (p : Ppu) (bgColor : Color) (spriteColor : OamColor) : Ppu :=
  if bitb p.mask 3 ∧ bitb p.mask 4 ∧ spriteColor.zero ∧ bgColor.transparent
      ∧ spriteColor.color.transparent then
    { p with status := setBit8 p.status 6 true }
  else p

/-- Ppu::put_pixels: compose the backdrop, background and sprite pixels
for the current dot, apply the sprite-0 hit update, write the pixel, and
clear the scratch line entries at x. -/
def Ppu.putPixels (p : Ppu) : Option Ppu :=
  match p.bus.read 0x3F00 with
  | none => none
  | some backdrop =>
    match COLORS.get? backdrop with
    | none => none
    | some pixel0 =>
      let bgColor := p.bgLine p.x
      let spriteColor := p.oamLine p.x
      match p.composeBgPixel bgColor pixel0 with
      | none => none
      | some pixel1 =>
        match p.composeSpritePixel bgColor spriteColor pixel1 with
        | none => none
        | some pixel2 =>
          match (p.applySprite0Hit bgColor spriteColor).putPixel
              (p.applySprite0Hit bgColor spriteColor).x
              (p.applySprite0Hit bgColor spriteColor).y pixel2 with
          | none => none
          | some r =>
            some { r with
              bgLine := fun j => if j = r.x then Color.default else r.bgLine j
              oamLine := fun j => if j = r.x then OamColor.default else r.oamLine j }

/-- The counter phase of Ppu::tick: wrap the dot counter at WIDTH
(incrementing the line counter), and at dot 0 wrap the line counter at
HEIGHT (clearing STATUS bit 7 and the NMI latch) and enter VBlank at
line VISIBLE_HEIGHT (setting STATUS bit 7 and, when CTRL bit 7 is set,
the NMI latch). -/
def Ppu.tickWrap (p : Ppu) : Ppu :=
  let p := if p.cycles = WIDTH then { p with cycles := 0, lines := p.lines + 1 } else p
  if p.cycles = 0 then
    let p :=
      if p.lines = HEIGHT then
        { p with lines := 0, status := setBit8 p.status 7 false, nmi := false }
      else p
    if p.lines = VISIBLE_HEIGHT then
      let p := { p with y := 0, mode := .vblank, status := setBit8 p.status 7 true }
      if bitb p.ctrl 7 then { p with nmi := true } else p
    else p
  else p

/-- The per-visible-line phase of Ppu::tick: refresh y from the line
counter and set x and the mode from the dot counter. -/
def Ppu.tickLine (p : Ppu) : Ppu :=
  if p.lines < VISIBLE_HEIGHT then
    let p := { p with y := u8 p.lines }
    if p.cycles = 0 then { p with x := 0, mode := .idle }
    else if 1 ≤ p.cycles ∧ p.cycles ≤ 256 then
      { p with x := u8 (p.cycles - 1), mode := .drawing }
    else if 257 ≤ p.cycles ∧ p.cycles ≤ 320 then { p with mode := .oamScan }
    else if 321 ≤ p.cycles ∧ p.cycles ≤ 340 then { p with mode := .postIdle }
    else p
  else p

/-- The mode-dispatch phase at the end of Ppu::tick. -/
def Ppu.tickDraw (p : Ppu) : Option Ppu :=
  match p.mode with
  | .drawing =>
    match p.drawBg with
    | none => none
    | some q => q.putPixels
  | .oamScan => p.drawSprites (p.cycles % 64)
  | _ => some p

/-- Ppu::tick: advance the dot counter, service the PPU bus channel, run
the wrap/VBlank logic, the per-line updates, and the mode action. -/
def Ppu.tick (p : Ppu) : Option Ppu :=
  let p1 := { p with cycles := p.cycles + 1 }
  match p1.bus.tick with
  | none => none
  | some bus => Ppu.tickDraw (Ppu.tickLine (Ppu.tickWrap { p1 with bus := bus }))

/-- Ppu::read_ctrl. -/
def Ppu.readCtrl (p : Ppu) : Nat := p.ctrl

/-- Ppu::read_mask. -/
def Ppu.readMask (p : Ppu) : Nat := p.mask

/-- Ppu::read_status: clear the two-byte write latch, return the status
byte, and clear its bits 7, 6 and 5. -/
def Ppu.readStatus (p : Ppu) : Nat × Ppu :=
  let p := { p with buffer := [] }
  let status := p.status
  let p := { p with status := setBit8 (setBit8 (setBit8 p.status 7 false) 6 false) 5 false }
  (status, p)

/-- Ppu::buffer_addr: the latched VRAM address, 0 unless exactly two
bytes have been written (high byte first). -/
def Ppu.bufferAddr (p : Ppu) : Nat :=
  match p.buffer with
  | [hi, lo] => lo ||| (hi <<< 8)
  | _ => 0

/-- Ppu::set_buffer_addr: replace the latch with the two bytes of addr. -/
def Ppu.setBufferAddr (p : Ppu) (addr : Nat) : Ppu :=
  { p with buffer := [u8 (addr >>> 8), addr &&& 0xFF] }

/-- Ppu::read_oam_data: the source is a TODO stub that returns Ok(0)
without looking at OAM. -/
def Ppu.readOamData (_p : Ppu) : Nat := 0

/-- Ppu::read_vram_data: read through the PPU bus at the latched address
and post-increment the latch by 1 or 32 (CTRL bit 2), wrapping as u16. -/
def Ppu.readVramData (p : Ppu) : Option (Nat × Ppu) := do
  let addr := p.bufferAddr
  let result ← p.bus.read addr
  let p := p.setBufferAddr (u16 (addr + if bitb p.ctrl 2 then 32 else 1))
  pure (result, p)

/-- Ppu::read_oam_dma: reading 0x4014 returns the OAM address register. -/
def Ppu.readOamDma (p : Ppu) : Nat := p.oamAddr

/-- Ppu::write_buffer: clear the latch once it already holds two bytes,
then push the new byte. -/
def Ppu.writeBuffer (p : Ppu) (data : Nat) : Ppu :=
  let p := if 2 ≤ p.buffer.length then { p with buffer := [] } else p
  { p with buffer := p.buffer ++ [u8 data] }

/-- Ppu::write_ctrl: store the byte; a 0 to 1 transition of the
NMI-enable bit while the mode is VBlank asserts NMI immediately. -/
def Ppu.writeCtrl (p : Ppu) (data : Nat) : Ppu :=
  let ctrl := u8 data
  let p :=
    if !bitb p.ctrl 7 ∧ bitb ctrl 7 ∧ p.mode = .vblank then { p with nmi := true }
    else p
  { p with ctrl := ctrl }

/-- Ppu::write_mask. -/
def Ppu.writeMask (p : Ppu) (data : Nat) : Ppu := { p with mask := u8 data }

/-- Ppu::write_status. -/
def Ppu.writeStatus (p : Ppu) (data : Nat) : Ppu := { p with status := u8 data }

/-- Ppu::write_oam_addr. -/
def Ppu.writeOamAddr (p : Ppu) (data : Nat) : Ppu := { p with oamAddr := u8 data }

/-- Ppu::write_oam_data: store into OAM at the OAM address register; the
register itself is left unchanged (no increment in the source). -/
def Ppu.writeOamData (p : Ppu) (data : Nat) : Ppu :=
  { p with bus := { p.bus with oam := upd p.bus.oam (u8 p.oamAddr) (u8 data) } }

/-- Ppu::write_scroll: push the byte into the shared latch; once two
bytes are present copy them into scroll x and scroll y. -/
def Ppu.writeScroll (p : Ppu) (data : Nat) : Ppu :=
  let p := p.writeBuffer data
  match p.buffer with
  | [b0, b1] => { p with scrollX := b0, scrollY := b1 }
  | _ => p

/-- Ppu::write_vram_addr: push the byte into the shared latch. -/
def Ppu.writeVramAddr (p : Ppu) (data : Nat) : Ppu := p.writeBuffer data

/-- Ppu::write_vram_data: write through the PPU bus at the latched
address and post-increment the latch. -/
def Ppu.writeVramData (p : Ppu) (data : Nat) : Ppu :=
  let addr := p.bufferAddr
  let p := { p with bus := p.bus.write addr data }
  p.setBufferAddr (u16 (addr + if bitb p.ctrl 2 then 32 else 1))

/-- Ppu::write_oam_dma: latch the DMA page and request the DMA transfer
(a RequestDma event sent to the CPU bus); the event is returned with the
updated Ppu. -/
def Ppu.writeOamDma (p : Ppu) (data : Nat) : Ppu × (Nat × Nat) :=
  let p := { p with dmaAddr := u8 data <<< 8 }
  (p, PpuBus.requestDma p.dmaAddr p.oamAddr)

/-! ## CPU bus (src/bus.rs, CpuBus)

The CpuBus owns the work RAM, the cycle and stall counters, and borrows
the Ppu, Apu, joypads and the mapper. The mapper Rc is the same object
the PPU bus holds, so the embedding keeps the single copy inside
ppu.bus.mmc. The RequestDma channel from the PPU bus is the events
list. -/

structure CpuBus where
  ppu : Ppu
  joypad1 : Joypad
  joypad2 : Joypad
  events : List (Nat × Nat)
  cycles : Nat
  stalls : Nat
  wram : Nat → Nat

/-- CpuBus::new: work RAM is filled with 0xFF, counters start at 0. -/
def CpuBus.init (mmc : Mmc) : CpuBus :=
  { ppu := Ppu.init mmc, joypad1 := Joypad.init, joypad2 := Joypad.init
    events := [], cycles := 0, stalls := 0, wram := fun _ => 0xFF }

/-- Mirror folding at the top of CpuBus::read and CpuBus::write. -/
def CpuBus.fold (addr : Nat) : Nat :=
  if 0x0800 ≤ addr ∧ addr ≤ 0x1FFF then (addr - 0x0800) % 0x0800
  else if 0x2008 ≤ addr ∧ addr ≤ 0x3FFF then 0x2000 + (addr - 0x2008) % 0x0008
  else addr

/-- The APU register addresses that CpuBus::read lists explicitly
(0x4009 and 0x400D are absent from the match and fall through to the
mapper). -/
def CpuBus.isApuReg (a : Nat) : Prop :=
  (0x4000 ≤ a ∧ a ≤ 0x4008) ∨ (0x400A ≤ a ∧ a ≤ 0x400C) ∨ (0x400E ≤ a ∧ a ≤ 0x4013)

instance (a : Nat) : Decidable (CpuBus.isApuReg a) := by
  unfold CpuBus.isApuReg; infer_instance

/-- CpuBus::read: fold mirrors, then dispatch to work RAM, the PPU
register port, the APU stub, the joypads or the mapper. Reads with side
effects (0x2002 status, 0x2007 VRAM data, joypads) thread the updated
state. -/
def CpuBus.read (b : CpuBus) (addr : Nat) : Option (Nat × CpuBus) :=
  let a := CpuBus.fold addr
  if a ≤ 0x07FF then some (u8 (b.wram a), b)
  else if a = 0x2000 then some (b.ppu.readCtrl, b)
  else if a = 0x2001 then some (b.ppu.readMask, b)
  else if a = 0x2002 then
    let (v, ppu) := b.ppu.readStatus
    some (v, { b with ppu := ppu })
  else if a = 0x2004 then some (b.ppu.readOamData, b)
  else if a = 0x2007 then
    match b.ppu.readVramData with
    | none => none
    | some (v, ppu) => some (v, { b with ppu := ppu })
  else if CpuBus.isApuReg a then some (Apu.readReg, b)
  else if a = 0x4014 then some (b.ppu.readOamDma, b)
  else if a = 0x4015 then some (Apu.readReg, b)
  else if a = 0x4016 then
    let (v, j) := b.joypad1.read
    some (v, { b with joypad1 := j })
  else if a = 0x4017 then
    let (v, j) := b.joypad2.read
    some (v, { b with joypad2 := j })
  else
    match b.ppu.bus.mmc.readCpu a with
    | none => none
    | some v => some (v, b)

/-- CpuBus::read_word: little-endian 16-bit read (the second byte at the
wrapping successor address). -/
def CpuBus.readWord (b : CpuBus) (addr : Nat) : Option (Nat × CpuBus) := do
  let (low, b) ← b.read addr
  let (high, b) ← b.read (u16 (addr + 1))
  pure ((high <<< 8) ||| low, b)

/-- CpuBus::write: fold mirrors, then dispatch to work RAM, the PPU
register port (a 0x4014 write latches the DMA page and queues a
RequestDma event on this bus), the APU stub, the joypads or the
mapper. -/
def CpuBus.write (b : CpuBus) (addr data : Nat) : CpuBus :=
  let a := CpuBus.fold addr
  if a ≤ 0x07FF then { b with wram := upd b.wram a (u8 data) }
  else if a = 0x2000 then { b with ppu := b.ppu.writeCtrl data }
  else if a = 0x2001 then { b with ppu := b.ppu.writeMask data }
  else if a = 0x2002 then { b with ppu := b.ppu.writeStatus data }
  else if a = 0x2003 then { b with ppu := b.ppu.writeOamAddr data }
  else if a = 0x2004 then { b with ppu := b.ppu.writeOamData data }
  else if a = 0x2005 then { b with ppu := b.ppu.writeScroll data }
  else if a = 0x2006 then { b with ppu := b.ppu.writeVramAddr data }
  else if a = 0x2007 then { b with ppu := b.ppu.writeVramData data }
  else if CpuBus.isApuReg a then b
  else if a = 0x4014 then
    let (ppu, event) := b.ppu.writeOamDma data
    { b with ppu := ppu, events := b.events ++ [event] }
  else if a = 0x4015 then b
  else if a = 0x4016 then { b with joypad1 := b.joypad1.write data }
  else if a = 0x4017 then { b with joypad2 := b.joypad2.write data }
  else if 0x4020 ≤ a ∧ a ≤ 0xFFFF then
    { b with ppu := { b.ppu with bus :=
      { b.ppu.bus with mmc := b.ppu.bus.mmc.writeCpu a data } } }
  else b

/-- CpuBus::write_word: little-endian 16-bit write. -/
def CpuBus.writeWord (b : CpuBus) (addr data : Nat) : CpuBus :=
  let b := b.write addr (data &&& 0x00FF)
  b.write (u16 (addr + 1)) (data >>> 8)

/-- Sequential reads used by the RequestDma arm of CpuBus::tick. -/
def CpuBus.readSeq (b : CpuBus) : List Nat → Option (List Nat × CpuBus)
  | [] => some ([], b)
  | a :: rest => do
    let (v, b) ← b.read a
    let (vs, b) ← b.readSeq rest
    pure (v :: vs, b)

/-- The source addresses of one OAM DMA: for i in addr..(addr + 0x0100).
The upper bound is a u16 sum; when it wraps (release semantics) the
range is empty. -/
def CpuBus.dmaRange (addr : Nat) : List Nat :=
  (List.range (u16 (addr + 0x0100) - addr)).map (addr + ·)

/-- CpuBus::tick: service one pending RequestDma event, reading the 256
source bytes through the bus, forwarding them as a Dma event to the PPU
bus, and adding 513 + (cycles AND 1) stall cycles. -/
def CpuBus.tick (b : CpuBus) : Option CpuBus :=
  match b.events with
  | [] => some b
  | (addr, oamAddr) :: rest => do
    let b := { b with events := rest }
    let (result, b) ← b.readSeq (CpuBus.dmaRange addr)
    let b := { b with ppu := { b.ppu with bus :=
      { b.ppu.bus with events := b.ppu.bus.events ++ [(result, oamAddr)] } } }
    let stalls := u16 (b.stalls + 513 + (if b.cycles % 2 = 0 then 0 else 1))
    pure { b with stalls := stalls }

/-- CpuBus::nmi: report and consume the PPU's NMI latch. -/
def CpuBus.nmi (b : CpuBus) : Bool × CpuBus :=
  if b.ppu.nmi then (true, { b with ppu := { b.ppu with nmi := false } })
  else (false, b)

/-! ## CPU (src/cpu.rs)

The embedding covers the register file, the stack helpers and the opcode
decoder (the bitmatch dispatch of Cpu::do_mnemonic, mapped onto a
mnemonic/addressing-mode value in the source's arm order). -/

/-- STACK_BASE constant from src/cpu.rs. -/
def STACK_BASE : Nat := 0x0100

/-- The CPU register file and flags (Cpu struct in src/cpu.rs); p is the
raw status byte. -/
structure Cpu where
  a : Nat
  x : Nat
  y : Nat
  s : Nat
  p : Nat
  pc : Nat
  irq : Bool
  halt : Bool
  bus : CpuBus

/-- Cpu::new. -/
def Cpu.init (bus : CpuBus) : Cpu :=
  { a := 0, x := 0, y := 0, s := 0xFD, p := 0x24, pc := 0
    irq := false, halt := false, bus := bus }

/-- Cpu::push_8: write at STACK_BASE + S, then decrement S (wrapping). -/
def Cpu.push8 (c : Cpu) (data : Nat) : Cpu :=
  let c := { c with bus := c.bus.write (STACK_BASE + c.s) data }
  { c with s := u8sub c.s 1 }

/-- Cpu::pop_8: increment S (wrapping), then read at STACK_BASE + S. -/
def Cpu.pop8 (c : Cpu) : Option (Nat × Cpu) :=
  let c := { c with s := u8 (c.s + 1) }
  match c.bus.read (STACK_BASE + c.s) with
  | none => none
  | some (v, bus) => some (v, { c with bus := bus })

/-- Cpu::push_16: decrement S, write the 16-bit word at STACK_BASE + S
(write_word puts the low byte there and the high byte at the plain u16
successor address), then decrement S again. -/
def Cpu.push16 (c : Cpu) (data : Nat) : Cpu :=
  let c := { c with s := u8sub c.s 1 }
  let c := { c with bus := c.bus.writeWord (STACK_BASE + c.s) data }
  { c with s := u8sub c.s 1 }

/-- Cpu::pop_16: increment S, read the 16-bit word at STACK_BASE + S,
then increment S again. -/
def Cpu.pop16 (c : Cpu) : Option (Nat × Cpu) :=
  let c := { c with s := u8 (c.s + 1) }
  match c.bus.readWord (STACK_BASE + c.s) with
  | none => none
  | some (v, bus) => some (v, { c with bus := bus, s := u8 (c.s + 1) })

/-- Cpu::stp: the source body is unimplemented!, an unconditional panic,
so executing STP aborts instead of returning a state. -/
def Cpu.stp (_c : Cpu) : Option Cpu := none

/-- The 6502 addressing modes (AddrMode enum in src/cpu.rs). -/
inductive AddrMode
  | zeroPageIndexedX
  | zeroPageIndexedY
  | absoluteIndexedX
  | absoluteIndexedY
  | indexedIndirectX
  | indirectIndexedY
  | accumulator
  | immediate
  | zeroPage
  | absolute
  | relative
  | indirect
deriving DecidableEq

/-- Cpu::addr_mode_from_ctrl_mode. -/
def addrModeFromCtrlMode (m : Nat) : AddrMode :=
  match m with
  | 0 => .zeroPage
  | 1 => .absolute
  | 2 => .zeroPageIndexedX
  | _ => .absoluteIndexedX

/-- Cpu::addr_mode_from_alu_mode. -/
def addrModeFromAluMode (m : Nat) : AddrMode :=
  match m with
  | 0 => .indexedIndirectX
  | 1 => .zeroPage
  | 2 => .immediate
  | 3 => .absolute
  | 4 => .indirectIndexedY
  | 5 => .zeroPageIndexedX
  | 6 => .absoluteIndexedY
  | _ => .absoluteIndexedX

/-- Cpu::addr_mode_from_ax_mode. -/
def addrModeFromAxMode (m : Nat) : AddrMode :=
  match m with
  | 0 => .indexedIndirectX
  | 1 => .zeroPage
  | 2 => .immediate
  | 3 => .absolute
  | 4 => .indirectIndexedY
  | 5 => .zeroPageIndexedY
  | 6 => .absoluteIndexedY
  | _ => .absoluteIndexedY

/-- Cpu::addr_mode_from_rmw_mode_x. -/
def addrModeFromRmwModeX (m : Nat) : AddrMode :=
  match m with
  | 0 => .zeroPage
  | 1 => .absolute
  | 2 => .zeroPageIndexedX
  | _ => .absoluteIndexedX

/-- Cpu::addr_mode_from_rmw_mode_y. -/
def addrModeFromRmwModeY (m : Nat) : AddrMode :=
  match m with
  | 0 => .zeroPage
  | 1 => .absolute
  | 2 => .zeroPageIndexedY
  | _ => .absoluteIndexedY

/-- The mnemonics dispatched by Cpu::do_mnemonic, one constructor per
handler, plus unknown for the final logging arm. -/
inductive Mnem
  | brk | jsr (m : AddrMode) | rti | rts | nop (padding : Nat)
  | ldy (m : AddrMode) | cpy (m : AddrMode) | cpx (m : AddrMode)
  | bitop (m : AddrMode) | sty (m : AddrMode)
  | php | plp | pha | pla | dey | tay | iny | inx
  | jmp (m : AddrMode)
  | bpl (m : AddrMode) | bmi (m : AddrMode) | bvc (m : AddrMode) | bvs (m : AddrMode)
  | bcc (m : AddrMode) | bcs (m : AddrMode) | bne (m : AddrMode) | beq (m : AddrMode)
  | clc | sec | cli | sei | tya | clv | cld | sed
  | shy (m : AddrMode)
  | ora (m : AddrMode) | andop (m : AddrMode) | eor (m : AddrMode) | adc (m : AddrMode)
  | sta (m : AddrMode) | lda (m : AddrMode) | cmp (m : AddrMode) | sbc (m : AddrMode)
  | ldx (m : AddrMode) | stp
  | asl (m : AddrMode) | rol (m : AddrMode) | lsr (m : AddrMode) | ror (m : AddrMode)
  | stx (m : AddrMode) | dec (m : AddrMode) | inc (m : AddrMode)
  | txa | tax | dex | txs | tsx
  | shx (m : AddrMode)
  | lax (m : AddrMode) | sax (m : AddrMode) | dcp (m : AddrMode) | isc (m : AddrMode)
  | axs (m : AddrMode) | slo (m : AddrMode) | rla (m : AddrMode) | sre (m : AddrMode)
  | rra (m : AddrMode)
  | unknown

/-- Whether a mnemonic is the final logging arm for unmatched opcodes. -/
def Mnem.isUnknown : Mnem → Bool
  | .unknown => true
  | _ => false

/-- The opcode dispatch of Cpu::do_mnemonic: the bitmatch arms in source
order, translated to guarded tests on the opcode's bit fields (h is the
top three bits; the mm/mmm fields are the pattern's mode bits). An
opcode matched by no arm is Mnem.unknown (the source logs it and
returns Ok). -/
def cpuDecode (op0 : Nat) : Mnem :=
  let op := u8 op0
  let h := op >>> 5
  -- Control column, +00
  if op = 0x00 then .brk
  else if op = 0x20 then .jsr .absolute
  else if op = 0x40 then .rti
  else if op = 0x60 then .rts
  else if op = 0x80 then .nop 1
  else if op = 0xA0 then .ldy .immediate
  else if op = 0xC0 then .cpy .immediate
  else if op = 0xE0 then .cpx .immediate
  -- +04
  else if op &&& 0x1F = 0x04 ∧ (h = 0b000 ∨ h = 0b010 ∨ h = 0b011) then .nop 1
  else if op &&& 0b11110111 = 0b00100100 then .bitop (addrModeFromCtrlMode ((op >>> 3) &&& 1))
  else if op &&& 0b11100111 = 0b10000100 ∧ (op >>> 3) &&& 3 ≠ 0b11 then
    .sty (addrModeFromCtrlMode ((op >>> 3) &&& 3))
  else if op &&& 0b11100111 = 0b10100100 then .ldy (addrModeFromCtrlMode ((op >>> 3) &&& 3))
  else if op &&& 0b11110111 = 0b11000100 then .cpy (addrModeFromCtrlMode ((op >>> 3) &&& 1))
  else if op &&& 0b11110111 = 0b11100100 then .cpx (addrModeFromCtrlMode ((op >>> 3) &&& 1))
  -- +08
  else if op = 0x08 then .php
  else if op = 0x28 then .plp
  else if op = 0x48 then .pha
  else if op = 0x68 then .pla
  else if op = 0x88 then .dey
  else if op = 0xA8 then .tay
  else if op = 0xC8 then .iny
  else if op = 0xE8 then .inx
  -- +0C
  else if op = 0x0C then .nop 2
  else if op = 0x4C then .jmp .absolute
  else if op = 0x6C then .jmp .indirect
  -- +10
  else if op = 0x10 then .bpl .relative
  else if op = 0x30 then .bmi .relative
  else if op = 0x50 then .bvc .relative
  else if op = 0x70 then .bvs .relative
  else if op = 0x90 then .bcc .relative
  else if op = 0xB0 then .bcs .relative
  else if op = 0xD0 then .bne .relative
  else if op = 0xF0 then .beq .relative
  -- +14
  else if op &&& 0x1F = 0x14 ∧ h ≠ 0b100 ∧ h ≠ 0b101 then .nop 1
  -- +18
  else if op = 0x18 then .clc
  else if op = 0x38 then .sec
  else if op = 0x58 then .cli
  else if op = 0x78 then .sei
  else if op = 0x98 then .tya
  else if op = 0xB8 then .clv
  else if op = 0xD8 then .cld
  else if op = 0xF8 then .sed
  -- +1C
  else if op &&& 0x1F = 0x1C ∧ h ≠ 0b100 ∧ h ≠ 0b101 then .nop 2
  else if op = 0x9C then .shy .absoluteIndexedX
  -- ALU column, cc = 01
  else if op &&& 0b11100011 = 0b00000001 then .ora (addrModeFromAluMode ((op >>> 2) &&& 7))
  else if op &&& 0b11100011 = 0b00100001 then .andop (addrModeFromAluMode ((op >>> 2) &&& 7))
  else if op &&& 0b11100011 = 0b01000001 then .eor (addrModeFromAluMode ((op >>> 2) &&& 7))
  else if op &&& 0b11100011 = 0b01100001 then .adc (addrModeFromAluMode ((op >>> 2) &&& 7))
  else if op &&& 0b11100011 = 0b10000001 ∧ (op >>> 2) &&& 7 ≠ 0b010 then
    .sta (addrModeFromAluMode ((op >>> 2) &&& 7))
  else if op &&& 0b11100011 = 0b10100001 then .lda (addrModeFromAluMode ((op >>> 2) &&& 7))
  else if op &&& 0b11100011 = 0b11000001 then .cmp (addrModeFromAluMode ((op >>> 2) &&& 7))
  else if op &&& 0b11100011 = 0b11100001 then .sbc (addrModeFromAluMode ((op >>> 2) &&& 7))
  -- +09
  else if op = 0x89 then .nop 1
  -- RMW column, +02
  else if op = 0xA2 then .ldx .immediate
  else if op &&& 0x1F = 0x02 ∧ h ≤ 0b011 then .stp
  else if op &&& 0x1F = 0x02 ∧ (h = 0b100 ∨ h = 0b110 ∨ h = 0b111) then .nop 0
  else if op &&& 0b11100111 = 0b00000110 then .asl (addrModeFromRmwModeX ((op >>> 3) &&& 3))
  else if op &&& 0b11100111 = 0b00100110 then .rol (addrModeFromRmwModeX ((op >>> 3) &&& 3))
  else if op &&& 0b11100111 = 0b01000110 then .lsr (addrModeFromRmwModeX ((op >>> 3) &&& 3))
  else if op &&& 0b11100111 = 0b01100110 then .ror (addrModeFromRmwModeX ((op >>> 3) &&& 3))
  else if op &&& 0b11100111 = 0b10000110 ∧ (op >>> 3) &&& 3 ≠ 0b11 then
    .stx (addrModeFromRmwModeY ((op >>> 3) &&& 3))
  else if op &&& 0b11100111 = 0b10100110 then .ldx (addrModeFromRmwModeY ((op >>> 3) &&& 3))
  else if op &&& 0b11100111 = 0b11000110 then .dec (addrModeFromRmwModeX ((op >>> 3) &&& 3))
  else if op &&& 0b11100111 = 0b11100110 then .inc (addrModeFromRmwModeX ((op >>> 3) &&& 3))
  -- +0A
  else if op = 0x0A then .asl .accumulator
  else if op = 0x2A then .rol .accumulator
  else if op = 0x4A then .lsr .accumulator
  else if op = 0x6A then .ror .accumulator
  else if op = 0x8A then .txa
  else if op = 0xAA then .tax
  else if op = 0xCA then .dex
  else if op = 0xEA then .nop 0
  -- +12
  else if op &&& 0x1F = 0x12 then .stp
  -- +1A
  else if op &&& 0x1F = 0x1A ∧ h ≠ 0b100 ∧ h ≠ 0b101 then .nop 0
  else if op = 0x9A then .txs
  else if op = 0xBA then .tsx
  -- +1E
  else if op = 0x9E then .shx .absoluteIndexedY
  -- unofficial column, cc = 11
  else if op &&& 0b11100011 = 0b10100011 then .lax (addrModeFromAxMode ((op >>> 2) &&& 7))
  else if op &&& 0b11100011 = 0b10000011 then .sax (addrModeFromAxMode ((op >>> 2) &&& 7))
  else if op &&& 0b11100011 = 0b11000011 ∧ (op >>> 2) &&& 7 ≠ 0b010 then
    .dcp (addrModeFromAluMode ((op >>> 2) &&& 7))
  else if op &&& 0b11100011 = 0b11100011 ∧ (op >>> 2) &&& 7 ≠ 0b010 then
    .isc (addrModeFromAluMode ((op >>> 2) &&& 7))
  else if op = 0xCB then .axs .immediate
  else if op = 0xEB then .sbc .immediate
  else if op &&& 0b11100011 = 0b00000011 then .slo (addrModeFromAluMode ((op >>> 2) &&& 7))
  else if op &&& 0b11100011 = 0b00100011 then .rla (addrModeFromAluMode ((op >>> 2) &&& 7))
  else if op &&& 0b11100011 = 0b01000011 then .sre (addrModeFromAluMode ((op >>> 2) &&& 7))
  else if op &&& 0b11100011 = 0b01100011 then .rra (addrModeFromAluMode ((op >>> 2) &&& 7))
  else .unknown

/-! ## Machine (src/nes.rs) -/

/-- The component tick calls a Machine drives. -/
inductive NesCall
  | cpuTick
  | ppuTick
deriving DecidableEq

/-- Nes::tick performs exactly these component calls in this order: one
cpu.borrow_mut().tick() followed by one ppu.borrow_mut().tick()
(src/nes.rs lines 79 to 84). -/
def Nes.tickCalls : List NesCall := [.cpuTick, .ppuTick]

/-- The call trace of n consecutive Machine ticks. -/
def Nes.trace : Nat → List NesCall
  | 0 => []
  | n + 1 => Nes.trace n ++ Nes.tickCalls

/-! ## Concrete example states used by the theorems -/

/-- A concrete 32 KiB PRG / 8 KiB CHR cartridge with zeroed contents. -/
def romEx : Rom :=
  { prgSize := 0x8000, chrSize := 0x2000, prgData := fun _ => 0, chrData := fun _ => 0 }

/-- A concrete Mmc0 mapper over romEx. -/
def mmcEx : Mmc := .mmc0 romEx (fun _ => 0)

/-- The PPU state right after construction over mmcEx. -/
def ppuEx : Ppu := Ppu.init mmcEx

/-- A freshly constructed CPU bus whose work RAM is preloaded so that
byte a holds the low byte of its own address (distinct recognizable
data for the DMA and stack theorems). -/
def busEx : CpuBus := { CpuBus.init mmcEx with wram := fun a => u8 a }

/-- A freshly constructed CPU over busEx. -/
def cpuEx : Cpu := Cpu.init busEx

/-! ## Invariance lemmas for the PPU tick

The drawing actions at the end of Ppu::tick only touch the scratch
lines, the current-tile cache, the framebuffer and STATUS bit 6; the
counters, VBlank bit, NMI latch, registers and bus are untouched. These
lemmas let the timing theorems reason about Ppu::tick for arbitrary
reachable states. -/

/-- Fields of a Ppu state untouched by the drawing actions; the only
STATUS write in the drawing phase is the sprite-0 step setting bit 6, so
bit 7 and bit 5 are preserved and bit 6 is never cleared. -/
def DrawSame (p q : Ppu) : Prop :=
  q.cycles = p.cycles ∧ q.lines = p.lines ∧ q.nmi = p.nmi ∧ q.mode = p.mode
    ∧ q.ctrl = p.ctrl ∧ q.mask = p.mask ∧ q.bus = p.bus
    ∧ bitb q.status 7 = bitb p.status 7
    ∧ (bitb p.status 6 = true → bitb q.status 6 = true)
    ∧ bitb q.status 5 = bitb p.status 5

/-- DrawSame is reflexive. -/
lemma DrawSame.refl (p : Ppu) : DrawSame p p :=
  ⟨rfl, rfl, rfl, rfl, rfl, rfl, rfl, rfl, fun h => h, rfl⟩

/-- DrawSame is transitive. -/
lemma DrawSame.trans {p q r : Ppu} (h1 : DrawSame p q) (h2 : DrawSame q r) : DrawSame p r := by
  obtain ⟨a1, a2, a3, a4, a5, a6, a7, a8, a9, a10⟩ := h1
  obtain ⟨b1, b2, b3, b4, b5, b6, b7, b8, b9, b10⟩ := h2
  exact ⟨b1.trans a1, b2.trans a2, b3.trans a3, b4.trans a4, b5.trans a5,
    b6.trans a6, b7.trans a7, b8.trans a8, fun h => b9 (a9 h), b10.trans a10⟩

/-- Setting STATUS bit 6 (sprite-0 hit) does not change bit 7. -/
lemma bitb_setBit6_seven (s : Nat) : bitb (setBit8 s 6 true) 7 = bitb s 7 := by
  simp [setBit8, bitb, Nat.testBit_lor, show Nat.testBit 64 7 = false from by decide]

/-- Setting STATUS bit 7 makes bit 7 read true. -/
lemma bitb_setBit7_true (s : Nat) : bitb (setBit8 s 7 true) 7 = true := by
  simp [setBit8, bitb, Nat.testBit_lor, show Nat.testBit 128 7 = true from by decide]

/-- Clearing STATUS bit 7 makes bit 7 read false. -/
lemma bitb_setBit7_false (s : Nat) : bitb (setBit8 s 7 false) 7 = false := by
  simp [setBit8, bitb, Nat.testBit_and, show Nat.testBit 127 7 = false from by decide]

/-- Setting or clearing STATUS bit 7 does not change bit 6. -/
lemma bitb_setBit7_six (s : Nat) (b : Bool) : bitb (setBit8 s 7 b) 6 = bitb s 6 := by
  cases b
  · simp [setBit8, bitb, Nat.testBit_and, show Nat.testBit 127 6 = true from by decide]
  · simp [setBit8, bitb, Nat.testBit_lor, show Nat.testBit 128 6 = false from by decide]

/-- Setting or clearing STATUS bit 7 does not change bit 5. -/
lemma bitb_setBit7_five (s : Nat) (b : Bool) : bitb (setBit8 s 7 b) 5 = bitb s 5 := by
  cases b
  · simp [setBit8, bitb, Nat.testBit_and, show Nat.testBit 127 5 = true from by decide]
  · simp [setBit8, bitb, Nat.testBit_lor, show Nat.testBit 128 5 = false from by decide]

/-- Setting STATUS bit 6 makes bit 6 read true. -/
lemma bitb_setBit6_six (s : Nat) : bitb (setBit8 s 6 true) 6 = true := by
  simp [setBit8, bitb, Nat.testBit_lor, show Nat.testBit 64 6 = true from by decide]

/-- Setting STATUS bit 6 does not change bit 5. -/
lemma bitb_setBit6_five (s : Nat) : bitb (setBit8 s 6 true) 5 = bitb s 5 := by
  simp [setBit8, bitb, Nat.testBit_lor, show Nat.testBit 64 5 = false from by decide]

/-- Ppu::draw_bg only changes cur_bg and bg_line. -/
lemma drawBg_drawSame (p p' : Ppu) (h : p.drawBg = some p') : DrawSame p p' := by
  unfold Ppu.drawBg at h
  split at h
  · obtain ⟨rfl⟩ := h
    exact DrawSame.refl p
  · dsimp only at h
    split at h
    · exact Option.noConfusion h
    · rename_i q heq
      obtain ⟨rfl⟩ := h
      have hq : DrawSame p q := by
        split at heq
        · split at heq
          · exact Option.noConfusion heq
          · split at heq
            · exact Option.noConfusion heq
            · split at heq
              · exact Option.noConfusion heq
              · split at heq
                · exact Option.noConfusion heq
                · obtain ⟨rfl⟩ := heq
                  exact DrawSame.refl p
        · obtain ⟨rfl⟩ := heq
          exact DrawSame.refl p
      exact hq

/-- Ppu::draw_sprite only changes oam_line. -/
lemma drawSprite_drawSame (p : Ppu) (o : OamEntry) (p' : Ppu)
    (h : p.drawSprite o = some p') : DrawSame p p' := by
  unfold Ppu.drawSprite at h
  dsimp only at h
  split at h
  · exact Option.noConfusion h
  · split at h
    · exact Option.noConfusion h
    · obtain ⟨rfl⟩ := h
      exact DrawSame.refl p

/-- Ppu::draw_sprites only changes oam_line. -/
lemma drawSprites_drawSame (p : Ppu) (i : Nat) (p' : Ppu)
    (h : p.drawSprites i = some p') : DrawSame p p' := by
  unfold Ppu.drawSprites at h
  rw [ite_eq_iff] at h
  rcases h with ⟨_, h⟩ | ⟨_, h⟩
  · obtain ⟨rfl⟩ := h
    exact DrawSame.refl p
  · dsimp only at h
    rw [ite_eq_iff] at h
    rcases h with ⟨_, h⟩ | ⟨_, h⟩
    · exact drawSprite_drawSame p _ p' h
    · obtain ⟨rfl⟩ := h
      exact DrawSame.refl p

/-- The sprite-0 step leaves everything but STATUS bit 6 unchanged. -/
lemma applySprite0Hit_drawSame (p : Ppu) (bgColor : Color) (spriteColor : OamColor) :
    DrawSame p (p.applySprite0Hit bgColor spriteColor) := by
  unfold Ppu.applySprite0Hit
  split
  · exact ⟨rfl, rfl, rfl, rfl, rfl, rfl, rfl, bitb_setBit6_seven p.status,
      fun _ => bitb_setBit6_six p.status, bitb_setBit6_five p.status⟩
  · exact DrawSame.refl p

/-- ImageBuffer::put_pixel only changes the framebuffer. -/
lemma putPixel_drawSame (p : Ppu) (x y : Nat) (px : Rgba) (p' : Ppu)
    (h : p.putPixel x y px = some p') : DrawSame p p' := by
  unfold Ppu.putPixel at h
  rw [ite_eq_iff] at h
  rcases h with ⟨_, h⟩ | ⟨_, h⟩
  · obtain ⟨rfl⟩ := h
    exact DrawSame.refl p
  · exact Option.noConfusion h

/-- Ppu::put_pixels only changes the framebuffer, the scratch lines and
(possibly) STATUS bit 6, which leaves bit 7 as it was. -/
lemma putPixels_drawSame (p p' : Ppu) (h : p.putPixels = some p') : DrawSame p p' := by
  unfold Ppu.putPixels at h
  split at h
  · exact Option.noConfusion h
  · split at h
    · exact Option.noConfusion h
    · dsimp only at h
      split at h
      · exact Option.noConfusion h
      · split at h
        · exact Option.noConfusion h
        · split at h
          · exact Option.noConfusion h
          · rename_i r hr
            obtain ⟨rfl⟩ := h
            exact DrawSame.trans
              (DrawSame.trans (applySprite0Hit_drawSame p _ _) (putPixel_drawSame _ _ _ _ _ hr))
              ⟨rfl, rfl, rfl, rfl, rfl, rfl, rfl, rfl, fun h => h, rfl⟩

/-- The whole drawing phase of Ppu::tick preserves the DrawSame fields. -/
lemma tickDraw_drawSame (p p' : Ppu) (h : p.tickDraw = some p') : DrawSame p p' := by
  unfold Ppu.tickDraw at h
  split at h
  · rename_i hmode
    split at h
    · exact Option.noConfusion h
    · rename_i q heq
      exact DrawSame.trans (drawBg_drawSame p q heq) (putPixels_drawSame q p' h)
  · exact drawSprites_drawSame p _ p' h
  · obtain ⟨rfl⟩ := h
    exact DrawSame.refl p

/-- Ppu::tick per-line phase: the counters, status, NMI latch, registers
and bus are untouched (only y, x and the mode change). -/
lemma tickLine_same (p : Ppu) :
    (p.tickLine).cycles = p.cycles ∧ (p.tickLine).lines = p.lines
      ∧ (p.tickLine).status = p.status ∧ (p.tickLine).nmi = p.nmi
      ∧ (p.tickLine).ctrl = p.ctrl ∧ (p.tickLine).mask = p.mask
      ∧ (p.tickLine).bus = p.bus := by
  unfold Ppu.tickLine
  split
  · dsimp only
    repeat' split
    all_goals exact ⟨rfl, rfl, rfl, rfl, rfl, rfl, rfl⟩
  · exact ⟨rfl, rfl, rfl, rfl, rfl, rfl, rfl⟩

/-- Ppu::tick per-line phase: outside the visible lines the mode is kept. -/
lemma tickLine_mode_not_visible (p : Ppu) (h : ¬ p.lines < VISIBLE_HEIGHT) :
    (p.tickLine).mode = p.mode := by
  unfold Ppu.tickLine
  rw [if_neg h]

/-- Ppu::tick per-line phase: on a visible line, dots 1..256 select the
Drawing mode. -/
lemma tickLine_mode_drawing (p : Ppu) (h : p.lines < VISIBLE_HEIGHT)
    (h1 : 1 ≤ p.cycles) (h2 : p.cycles ≤ 256) :
    (p.tickLine).mode = Mode.drawing := by
  unfold Ppu.tickLine
  rw [if_pos h]
  dsimp only
  rw [if_neg (by omega : ¬ p.cycles = 0), if_pos ⟨h1, h2⟩]

/-- The counter phase of Ppu::tick, fully characterized for a state with
the dot counter already incremented (1..340) and the line counter in
range: the wrap of both counters, the exact transitions of STATUS bit 7
and the NMI latch, and the mode. -/
lemma tickWrap_spec (p : Ppu) (h1 : 1 ≤ p.cycles) (h2 : p.cycles ≤ 340) (h3 : p.lines < 261) :
    (p.tickWrap).cycles = p.cycles % 340
    ∧ (p.tickWrap).lines = (if p.cycles = 340 then (p.lines + 1) % 261 else p.lines)
    ∧ (p.tickWrap).ctrl = p.ctrl ∧ (p.tickWrap).mask = p.mask ∧ (p.tickWrap).bus = p.bus
    ∧ ((p.tickWrap).status =
        (if p.cycles = 340 ∧ p.lines + 1 = 240 then setBit8 p.status 7 true
         else if p.cycles = 340 ∧ p.lines + 1 = 261 then setBit8 p.status 7 false
         else p.status))
    ∧ (bitb (p.tickWrap).status 7 =
        (if p.cycles = 340 ∧ p.lines + 1 = 240 then true
         else if p.cycles = 340 ∧ p.lines + 1 = 261 then false
         else bitb p.status 7))
    ∧ ((p.tickWrap).nmi =
        (if p.cycles = 340 ∧ p.lines + 1 = 240 ∧ bitb p.ctrl 7 = true then true
         else if p.cycles = 340 ∧ p.lines + 1 = 261 then false
         else p.nmi))
    ∧ (p.cycles = 340 ∧ p.lines + 1 = 240 → (p.tickWrap).mode = Mode.vblank)
    ∧ (¬ (p.cycles = 340 ∧ p.lines + 1 = 240) → (p.tickWrap).mode = p.mode) := by
  by_cases hw : p.cycles = 340
  · by_cases h261 : p.lines + 1 = 261
    · have h240 : ¬ (p.lines + 1 = 240) := by omega
      simp [Ppu.tickWrap, WIDTH, HEIGHT, VISIBLE_HEIGHT, hw, h261, h240,
        bitb_setBit7_false, bitb_setBit7_true]
    · by_cases h240 : p.lines + 1 = 240
      · by_cases hie : bitb p.ctrl 7
        · simp [Ppu.tickWrap, WIDTH, HEIGHT, VISIBLE_HEIGHT, hw, h261, h240, hie,
            bitb_setBit7_false, bitb_setBit7_true]
        · simp [Ppu.tickWrap, WIDTH, HEIGHT, VISIBLE_HEIGHT, hw, h261, h240, hie,
            bitb_setBit7_false, bitb_setBit7_true]
      · simp [Ppu.tickWrap, WIDTH, HEIGHT, VISIBLE_HEIGHT, hw, h261, h240,
          bitb_setBit7_false, bitb_setBit7_true]
        omega
  · simp [Ppu.tickWrap, WIDTH, HEIGHT, VISIBLE_HEIGHT, hw,
      show ¬ p.cycles = 0 by omega, Nat.mod_eq_of_lt (show p.cycles < 340 by omega)]

/-- The counter phase of Ppu::tick keeps the VBlank classification of
the line counter: if every line at or above 240 is in VBlank mode before
the wrap, the state after the wrap is in VBlank mode whenever its line
counter is at or above 240 (the wrap either enters line 240 setting
VBlank, stays on the same line, or wraps to line 0). -/
lemma tickWrap_vblank_lines (p : Ppu) (h1 : 1 ≤ p.cycles) (h2 : p.cycles ≤ 340)
    (h3 : p.lines < 261) (hmv : 240 ≤ p.lines → p.mode = Mode.vblank) :
    240 ≤ (p.tickWrap).lines → (p.tickWrap).mode = Mode.vblank := by
  obtain ⟨hwc, hwl, _, _, _, hwst, hw7, hwn, hwmv, hwm⟩ := tickWrap_spec p h1 h2 h3
  intro hge
  rw [hwl] at hge
  by_cases hwrap : p.cycles = 340
  · rw [if_pos hwrap] at hge
    by_cases h240 : p.lines + 1 = 240
    · exact hwmv ⟨hwrap, h240⟩
    · have hplge : 240 ≤ p.lines := by
        by_cases hl260 : p.lines = 260
        · omega
        · have : (p.lines + 1) % 261 = p.lines + 1 := Nat.mod_eq_of_lt (by omega)
          omega
      rw [hwm (by intro hc; exact h240 hc.2)]
      exact hmv hplge
  · rw [if_neg hwrap] at hge
    rw [hwm (by intro hc; exact hwrap hc.1)]
    exact hmv hge

/-! ## The cold run

With no register writes (mask, ctrl and palette all zero and no pending
bus events) every Ppu::tick succeeds, so the run from the initial state
is fully determined; the counters follow the 340-dot / 261-line wheel
and STATUS bit 7 follows the line counter. -/

/-- A value wrapped to u8 is below 256. -/
lemma u8_lt (n : Nat) : u8 n < 256 := Nat.mod_lt _ (by omega)

/-- Wrapping to u8 is the identity below 256. -/
lemma u8_eq_of_lt (n : Nat) (h : n < 256) : u8 n = n := Nat.mod_eq_of_lt h

/-- PpuBus::tick with an empty channel changes nothing. -/
lemma ppuBusTick_nil (b : PpuBus) (h : b.events = []) : b.tick = some b := by
  unfold PpuBus.tick
  rw [h]

/-- With background rendering off, Ppu::draw_bg returns early. -/
lemma drawBg_mask0 (p : Ppu) (hm : p.mask = 0) : p.drawBg = some p := by
  unfold Ppu.drawBg
  rw [if_pos (by simp [hm, bitb])]

/-- With sprite rendering off, Ppu::draw_sprites returns early. -/
lemma drawSprites_mask0 (p : Ppu) (i : Nat) (hm : p.mask = 0) : p.drawSprites i = some p := by
  unfold Ppu.drawSprites
  rw [if_pos (by simp [hm, bitb])]

/-- With rendering off, the background compose step keeps the backdrop. -/
lemma composeBgPixel_mask0 (p : Ppu) (hm : p.mask = 0) (c : Color) (px : Rgba) :
    p.composeBgPixel c px = some px := by
  unfold Ppu.composeBgPixel
  rw [if_neg (by simp [hm, bitb])]

/-- With rendering off, the sprite compose step keeps the pixel. -/
lemma composeSpritePixel_mask0 (p : Ppu) (hm : p.mask = 0) (c : Color) (s : OamColor)
    (px : Rgba) : p.composeSpritePixel c s px = some px := by
  unfold Ppu.composeSpritePixel
  rw [if_neg (by simp [hm, bitb])]

/-- With rendering off, the sprite-0 step changes nothing. -/
lemma applySprite0Hit_mask0 (p : Ppu) (hm : p.mask = 0) (c : Color) (s : OamColor) :
    p.applySprite0Hit c s = p := by
  unfold Ppu.applySprite0Hit
  rw [if_neg (by simp [hm, bitb])]

/-- With rendering off and the backdrop palette entry zero, put_pixels
succeeds (the pixel write is in bounds) and leaves STATUS unchanged. -/
lemma putPixels_cold (p : Ppu) (hm : p.mask = 0) (hpal : p.bus.palette 0 = 0)
    (hx : p.x < 256) (hy : p.y < 240) :
    ∃ p', p.putPixels = some p' ∧ p'.status = p.status := by
  have hread : p.bus.read 0x3F00 = some 0 := by
    simp [PpuBus.read, PpuBus.fold, hpal, u8]
  have hc0 : COLORS.get? 0 = some ⟨0x80, 0x80, 0x80, 0xFF⟩ := rfl
  unfold Ppu.putPixels
  simp only [hread, hc0, composeBgPixel_mask0 p hm, composeSpritePixel_mask0 p hm,
    applySprite0Hit_mask0 p hm]
  unfold Ppu.putPixel
  rw [if_pos (show p.x < VISIBLE_WIDTH ∧ p.y < VISIBLE_HEIGHT from
    ⟨hx, by simpa [VISIBLE_HEIGHT] using hy⟩)]
  exact ⟨_, rfl, rfl⟩

/-- With rendering off (and the backdrop entry zero, pixel coordinates
in range when drawing), the mode action succeeds and keeps STATUS. -/
lemma tickDraw_cold (p : Ppu) (hm : p.mask = 0) (hpal : p.bus.palette 0 = 0)
    (hdm : p.mode = Mode.drawing → p.x < 256 ∧ p.y < 240) :
    ∃ p', p.tickDraw = some p' ∧ p'.status = p.status := by
  unfold Ppu.tickDraw
  cases hmode : p.mode
  case drawing =>
    obtain ⟨hx, hy⟩ := hdm hmode
    rw [drawBg_mask0 p hm]
    exact putPixels_cold p hm hpal hx hy
  case oamScan => exact ⟨p, drawSprites_mask0 p _ hm, rfl⟩
  case idle => exact ⟨p, rfl, rfl⟩
  case postIdle => exact ⟨p, rfl, rfl⟩
  case vblank => exact ⟨p, rfl, rfl⟩

/-- On a visible line with the dot counter in range, a Drawing mode
after the per-line phase comes with in-range pixel coordinates. -/
lemma tickLine_drawing_coords (p : Ppu) (hvis : p.lines < VISIBLE_HEIGHT) (hc : p.cycles < 340) :
    (p.tickLine).mode = Mode.drawing → (p.tickLine).x < 256 ∧ (p.tickLine).y < 240 := by
  have hvis' : p.lines < 240 := by simpa [VISIBLE_HEIGHT] using hvis
  unfold Ppu.tickLine
  rw [if_pos hvis]
  dsimp only
  split
  · intro hmode
    exact absurd hmode (by simp)
  · split
    · intro _
      constructor
      · show u8 (p.cycles - 1) < 256
        exact u8_lt _
      · show u8 p.lines < 240
        rw [u8_eq_of_lt p.lines (by omega)]
        exact hvis'
    · split
      · intro hmode
        exact absurd hmode (by simp)
      · split
        · intro hmode
          exact absurd hmode (by simp)
        · intro hmode
          rename_i hn0 hn1 hn2 hn3
          omega

/-- The invariant of the register-silent run: rendering and NMI disabled,
no pending bus events, zero backdrop palette, counters in range, VBlank
mode and STATUS bit 7 tracking the line counter. -/
structure Cold (p : Ppu) : Prop where
  mask0 : p.mask = 0
  ctrl0 : p.ctrl = 0
  events : p.bus.events = []
  palette0 : p.bus.palette 0 = 0
  cyclesLt : p.cycles < 340
  linesLt : p.lines < 261
  modeVbl : 240 ≤ p.lines → p.mode = Mode.vblank
  statusEq : p.status = (if 240 ≤ p.lines then 128 else 0)
  nmiEq : p.nmi = false

/-- One Ppu::tick from any Cold state succeeds, stays Cold, and advances
the counters on the 340-dot / 261-line wheel. -/
lemma cold_step (p : Ppu) (h : Cold p) :
    ∃ p', p.tick = some p' ∧ Cold p'
      ∧ p'.cycles = (p.cycles + 1) % 340
      ∧ p'.lines = (if p.cycles + 1 = 340 then (p.lines + 1) % 261 else p.lines) := by
  obtain ⟨hm, hctrl, hev, hpal, hcy, hln, hmv, hst, hnm⟩ := h
  have hbt : ({ p with cycles := p.cycles + 1 } : Ppu).bus.tick = some p.bus :=
    ppuBusTick_nil _ hev
  obtain ⟨hwc0, hwl0, hwctrl, hwmask, hwbus, hwst0, hw7, hwn0, hwmv, hwm⟩ :=
    tickWrap_spec { p with cycles := p.cycles + 1, bus := p.bus }
      (by show 1 ≤ p.cycles + 1; omega) (by show p.cycles + 1 ≤ 340; omega)
      (by show p.lines < 261; omega)
  have hwc : (Ppu.tickWrap { p with cycles := p.cycles + 1, bus := p.bus }).cycles
      = (p.cycles + 1) % 340 := hwc0
  have hwl : (Ppu.tickWrap { p with cycles := p.cycles + 1, bus := p.bus }).lines
      = (if p.cycles + 1 = 340 then (p.lines + 1) % 261 else p.lines) := hwl0
  have hwst : (Ppu.tickWrap { p with cycles := p.cycles + 1, bus := p.bus }).status
      = (if p.cycles + 1 = 340 ∧ p.lines + 1 = 240 then setBit8 p.status 7 true
         else if p.cycles + 1 = 340 ∧ p.lines + 1 = 261 then setBit8 p.status 7 false
         else p.status) := hwst0
  have hwn : (Ppu.tickWrap { p with cycles := p.cycles + 1, bus := p.bus }).nmi
      = (if p.cycles + 1 = 340 ∧ p.lines + 1 = 240 ∧ bitb p.ctrl 7 = true then true
         else if p.cycles + 1 = 340 ∧ p.lines + 1 = 261 then false
         else p.nmi) := hwn0
  have hWvbl : 240 ≤ (Ppu.tickWrap { p with cycles := p.cycles + 1, bus := p.bus }).lines →
      (Ppu.tickWrap { p with cycles := p.cycles + 1, bus := p.bus }).mode = Mode.vblank := by
    intro hge
    rw [hwl] at hge
    by_cases hwrap : p.cycles + 1 = 340
    · rw [if_pos hwrap] at hge
      by_cases h240 : p.lines + 1 = 240
      · exact hwmv ⟨hwrap, h240⟩
      · have hplge : 240 ≤ p.lines := by
          by_cases hl260 : p.lines = 260
          · omega
          · have : (p.lines + 1) % 261 = p.lines + 1 := Nat.mod_eq_of_lt (by omega)
            omega
        rw [hwm (by intro hc; exact h240 hc.2)]
        exact hmv hplge
    · rw [if_neg hwrap] at hge
      rw [hwm (by intro hc; exact hwrap hc.1)]
      exact hmv hge
  obtain ⟨hlc, hll, hls, hlnm, hlctrl, hlmask, hlbus⟩ :=
    tickLine_same (Ppu.tickWrap { p with cycles := p.cycles + 1, bus := p.bus })
  have hmaskT :
      (Ppu.tickLine (Ppu.tickWrap { p with cycles := p.cycles + 1, bus := p.bus })).mask = 0 := by
    rw [hlmask]; exact hwmask.trans hm
  have hpalT :
      (Ppu.tickLine (Ppu.tickWrap { p with cycles := p.cycles + 1, bus := p.bus })).bus.palette 0
        = 0 := by
    rw [hlbus, hwbus]; exact hpal
  have hdmT :
      (Ppu.tickLine (Ppu.tickWrap { p with cycles := p.cycles + 1, bus := p.bus })).mode
          = Mode.drawing →
        (Ppu.tickLine (Ppu.tickWrap { p with cycles := p.cycles + 1, bus := p.bus })).x < 256
        ∧ (Ppu.tickLine (Ppu.tickWrap { p with cycles := p.cycles + 1, bus := p.bus })).y
            < 240 := by
    by_cases hvis :
        (Ppu.tickWrap { p with cycles := p.cycles + 1, bus := p.bus }).lines < VISIBLE_HEIGHT
    · exact tickLine_drawing_coords _ hvis (by rw [hwc]; exact Nat.mod_lt _ (by omega))
    · intro hmode
      rw [tickLine_mode_not_visible _ hvis] at hmode
      rw [hWvbl (by simpa [VISIBLE_HEIGHT] using hvis)] at hmode
      exact absurd hmode (by simp)
  obtain ⟨p', hpd, hps⟩ := tickDraw_cold _ hmaskT hpalT hdmT
  have htk : p.tick = some p' := by
    unfold Ppu.tick
    dsimp only
    rw [hbt]
    exact hpd
  obtain ⟨hdc, hdl, hdn, hdmo, hdctrl, hdmask, hdbus, hd7, _, _⟩ := tickDraw_drawSame _ p' hpd
  have ec : p'.cycles = (p.cycles + 1) % 340 := by rw [hdc, hlc, hwc]
  have el : p'.lines = (if p.cycles + 1 = 340 then (p.lines + 1) % 261 else p.lines) := by
    rw [hdl, hll, hwl]
  refine ⟨p', htk, ?_, ec, el⟩
  refine ⟨?_, ?_, ?_, ?_, ?_, ?_, ?_, ?_, ?_⟩
  · rw [hdmask]; exact hmaskT
  · rw [hdctrl, hlctrl]; exact hwctrl.trans hctrl
  · rw [hdbus, hlbus, hwbus]; exact hev
  · rw [hdbus]; exact hpalT
  · rw [ec]; exact Nat.mod_lt _ (by omega)
  · rw [el]; split <;> omega
  · intro hge
    rw [hdmo]
    have hWge : 240 ≤ (Ppu.tickWrap { p with cycles := p.cycles + 1, bus := p.bus }).lines := by
      have hfold : p'.lines
          = (Ppu.tickWrap { p with cycles := p.cycles + 1, bus := p.bus }).lines :=
        hdl.trans hll
      rw [← hfold]; exact hge
    rw [tickLine_mode_not_visible _ (by simp [VISIBLE_HEIGHT]; omega)]
    exact hWvbl hWge
  · rw [hps, hls, hwst, el]
    by_cases hwrap : p.cycles + 1 = 340
    · by_cases h240 : p.lines + 1 = 240
      · rw [if_pos ⟨hwrap, h240⟩, if_pos hwrap, hst,
          if_neg (show ¬ 240 ≤ p.lines by omega),
          if_pos (show 240 ≤ (p.lines + 1) % 261 by omega)]
        decide
      · by_cases h261 : p.lines + 1 = 261
        · rw [if_neg (by intro hc; exact h240 hc.2), if_pos ⟨hwrap, h261⟩, if_pos hwrap, hst,
            if_pos (show 240 ≤ p.lines by omega),
            if_neg (show ¬ 240 ≤ (p.lines + 1) % 261 by simp [h261])]
          decide
        · rw [if_neg (by intro hc; exact h240 hc.2), if_neg (by intro hc; exact h261 hc.2),
            if_pos hwrap, hst]
          have hmod : (p.lines + 1) % 261 = p.lines + 1 := Nat.mod_eq_of_lt (by omega)
          rw [hmod]
          by_cases hge : 240 ≤ p.lines
          · rw [if_pos hge, if_pos (by omega)]
          · rw [if_neg hge, if_neg (by omega)]
    · rw [if_neg (by intro hc; exact hwrap hc.1), if_neg (by intro hc; exact hwrap hc.1),
        if_neg hwrap, hst]
  · rw [hdn, hlnm, hwn, hctrl]
    rw [if_neg (by intro hc; exact absurd hc.2.2 (by decide))]
    split
    · rfl
    · exact hnm

/-- The register-silent run of the PPU from its initial state. -/
def ppuColdRun : Nat → Option Ppu
  | 0 => some ppuEx
  | n + 1 =>
    match ppuColdRun n with
    | none => none
    | some p => p.tick

/-- The initial PPU state is Cold. -/
lemma cold_init : Cold ppuEx := by
  refine ⟨rfl, rfl, rfl, rfl, by decide, by decide, ?_, ?_, rfl⟩
  · intro h
    exact absurd h (by decide)
  · decide

/-- The register-silent run never fails, stays Cold, and its counters
follow the closed forms n mod 340 and n / 340 mod 261. -/
lemma cold_run (n : Nat) :
    ∃ p, ppuColdRun n = some p ∧ Cold p ∧ p.cycles = n % 340 ∧ p.lines = n / 340 % 261 := by
  induction n with
  | zero => exact ⟨ppuEx, rfl, cold_init, rfl, rfl⟩
  | succ n ih =>
    obtain ⟨p, hrun, hcold, hc, hl⟩ := ih
    obtain ⟨p', htick, hcold', hc', hl'⟩ := cold_step p hcold
    refine ⟨p', ?_, hcold', ?_, ?_⟩
    · unfold ppuColdRun
      rw [hrun]
      exact htick
    · rw [hc', hc]; omega
    · rw [hl', hc, hl]
      by_cases hw : n % 340 + 1 = 340
      · rw [if_pos hw]; omega
      · rw [if_neg hw]; omega

/-! ## C1: Machine tick call ratio -/

/-- C1 counterexample: after one Machine tick the trace holds one
ppu.tick call and one cpu.tick call, so the PPU does not advance three
dots per CPU cycle as the claim states (1 is not 3 * 1). -/
theorem c1_counterexample :
    ¬ (Nes.trace 1).count NesCall.ppuTick = 3 * (Nes.trace 1).count NesCall.cpuTick := by
  decide

/-- C1 (amended): Nes::tick calls cpu.tick once and ppu.tick once, so
over every sequence of n Machine ticks the two components advance in a
fixed 1:1 ratio (n calls each), not 1:3. -/
theorem c1_tick_one_to_one (n : Nat) :
    (Nes.trace n).count NesCall.cpuTick = n ∧ (Nes.trace n).count NesCall.ppuTick = n := by
  have hc : Nes.tickCalls.count NesCall.cpuTick = 1 := by decide
  have hp : Nes.tickCalls.count NesCall.ppuTick = 1 := by decide
  induction n with
  | zero => decide
  | succ n ih =>
    unfold Nes.trace
    rw [List.count_append, List.count_append, ih.1, ih.2, hc, hp]
    exact ⟨rfl, rfl⟩

/-- C1 witness: the 1:1 trace theorem applied at the concrete input 2. -/
theorem c1_tick_one_to_one_witness :
    (Nes.trace 2).count NesCall.cpuTick = 2 ∧ (Nes.trace 2).count NesCall.ppuTick = 2 :=
  c1_tick_one_to_one 2

/-! ## C2: OAM DMA -/

/-- The full DMA pipeline with OAMADDR set to 1 first: write 1 to 0x2003,
then 0x02 to 0x4014, then run the CPU-bus tick that performs the 256
source reads, then the PPU-bus tick that stores them into OAM. -/
def dmaPipelineOam1 : Option PpuBus := do
  let b := busEx.write 0x2003 1
  let b := b.write 0x4014 0x02
  let b ← b.tick
  b.ppu.bus.tick

/-- The same pipeline with OAMADDR left at 0; returns the stall count
recorded by the CPU-bus tick together with the final PPU bus. -/
def dmaPipelineOam0 : Option (Nat × PpuBus) := do
  let b := busEx.write 0x4014 0x02
  let b ← b.tick
  let pb ← b.ppu.bus.tick
  pure (b.stalls, pb)

set_option maxRecDepth 20000 in
/-- C2: with OAMADDR = 1 the transfer of page 0x02 panics (the loop
stores data[255] at oam[256], past the 256-byte array, instead of
wrapping to OAM[0] as the claim states); with OAMADDR = 0 the transfer
succeeds, OAM[i] holds the byte read at 0x0200 + i (work RAM preloaded
with its own low address byte) and the stall counter gains 513 cycles
(the CPU-bus cycle counter being even). -/
theorem c2_dma_no_destination_wrap :
    dmaPipelineOam1 = none
    ∧ dmaPipelineOam0.map (fun r => (r.1, r.2.oam 0, r.2.oam 0x37, r.2.oam 0xFF))
        = some (513, 0x00, 0x37, 0xFF) := by
  constructor
  · rfl
  · rfl

/-! ## C3: VBlank set / clear points -/

/-- C3 counterexample: in the register-silent run from the initial
state, STATUS bit 7 is still clear after 81599 ticks (dot 339 of line
239) and becomes set on the very next tick, which lands on dot 0 of
line 240 - not on dot 1 of line 241 as the claim states; so an internal
transition sets the VBlank flag at another dot/line. -/
theorem c3_counterexample :
    ((ppuColdRun 81600).map fun p => (p.cycles, p.lines, p.status)) = some (0, 240, 128)
    ∧ ((ppuColdRun 81599).map fun p => (p.cycles, p.lines, p.status)) = some (339, 239, 0) := by
  obtain ⟨p1, hr1, hc1, hcy1, hl1⟩ := cold_run 81600
  obtain ⟨p0, hr0, hc0, hcy0, hl0⟩ := cold_run 81599
  have hl1v : p1.lines = 240 := by rw [hl1]
  have hcy1v : p1.cycles = 0 := by rw [hcy1]
  have hs1 : p1.status = 128 := by rw [hc1.statusEq, hl1v]; decide
  have hl0v : p0.lines = 239 := by rw [hl0]
  have hcy0v : p0.cycles = 339 := by rw [hcy0]
  have hs0 : p0.status = 0 := by rw [hc0.statusEq, hl0v]; decide
  constructor
  · rw [hr1]
    simp [hcy1v, hl1v, hs1]
  · rw [hr0]
    simp [hcy0v, hl0v, hs0]

/-- C3 (amended): for every in-range PPU state, one tick sets STATUS bit
7 exactly when entering dot 0 of line 240, clears bit 7 (and the NMI
latch) exactly when the line counter wraps from 260 back to 0 (the tick
that would start line 261), asserts NMI on the set point exactly when
CTRL bit 7 is set, and otherwise leaves bit 7 and the NMI latch alone;
STATUS bit 6 is never cleared by the tick transition and bit 5 is
preserved by it, so the wrap tick clears bit 7 but not bits 6 and 5. -/
theorem c3_vblank_transition_points (p p' : Ppu)
    (h1 : p.cycles < 340) (h2 : p.lines < 261) (h : p.tick = some p') :
    bitb p'.status 7 =
      (if p.cycles + 1 = 340 ∧ p.lines + 1 = 240 then true
       else if p.cycles + 1 = 340 ∧ p.lines + 1 = 261 then false
       else bitb p.status 7)
    ∧ p'.nmi =
      (if p.cycles + 1 = 340 ∧ p.lines + 1 = 240 ∧ bitb p.ctrl 7 = true then true
       else if p.cycles + 1 = 340 ∧ p.lines + 1 = 261 then false
       else p.nmi)
    ∧ (bitb p.status 6 = true → bitb p'.status 6 = true)
    ∧ bitb p'.status 5 = bitb p.status 5 := by
  unfold Ppu.tick at h
  dsimp only at h
  split at h
  · exact Option.noConfusion h
  · rename_i bus hbus
    obtain ⟨hdc, hdl, hdn, hdm, _, _, _, hd7, hd6, hd5⟩ := tickDraw_drawSame
      (Ppu.tickLine (Ppu.tickWrap { p with cycles := p.cycles + 1, bus := bus })) p' h
    obtain ⟨hlc, hll, hls, hln, _, _, _⟩ :=
      tickLine_same (Ppu.tickWrap { p with cycles := p.cycles + 1, bus := bus })
    obtain ⟨hwc, hwl, _, _, _, hwst, hw7, hwn, hwmv, hwm⟩ :=
      tickWrap_spec { p with cycles := p.cycles + 1, bus := bus }
        (by show 1 ≤ p.cycles + 1; omega) (by show p.cycles + 1 ≤ 340; omega)
        (by show p.lines < 261; omega)
    have h6w : bitb (Ppu.tickWrap { p with cycles := p.cycles + 1, bus := bus }).status 6
        = bitb p.status 6 := by
      rw [hwst]
      split
      · exact bitb_setBit7_six p.status true
      · split
        · exact bitb_setBit7_six p.status false
        · rfl
    have h5w : bitb (Ppu.tickWrap { p with cycles := p.cycles + 1, bus := bus }).status 5
        = bitb p.status 5 := by
      rw [hwst]
      split
      · exact bitb_setBit7_five p.status true
      · split
        · exact bitb_setBit7_five p.status false
        · rfl
    refine ⟨?_, ?_, ?_, ?_⟩
    · rw [hd7, hls]
      exact hw7
    · rw [hdn, hln]
      exact hwn
    · intro h6
      exact hd6 (by rw [hls, h6w]; exact h6)
    · rw [hd5, hls]
      exact h5w

/-- C3 concrete state for the witness: dot 339 of line 239. -/
def ppuW3 : Ppu := { ppuEx with cycles := 339, lines := 239 }

/-- The state one tick after ppuW3: dot 0 of line 240, VBlank set. -/
def ppuW3' : Ppu :=
  { ppuEx with cycles := 0, lines := 240, y := 0, mode := Mode.vblank, status := 128 }

/-- C3 witness: the transition theorem applied at the concrete state
ppuW3, whose tick enters VBlank. -/
theorem c3_vblank_transition_points_witness :
    ppuW3.cycles < 340 ∧ ppuW3.lines < 261
    ∧ (bitb ppuW3'.status 7 =
        (if ppuW3.cycles + 1 = 340 ∧ ppuW3.lines + 1 = 240 then true
         else if ppuW3.cycles + 1 = 340 ∧ ppuW3.lines + 1 = 261 then false
         else bitb ppuW3.status 7)
      ∧ ppuW3'.nmi =
        (if ppuW3.cycles + 1 = 340 ∧ ppuW3.lines + 1 = 240 ∧ bitb ppuW3.ctrl 7 = true then true
         else if ppuW3.cycles + 1 = 340 ∧ ppuW3.lines + 1 = 261 then false
         else ppuW3.nmi)
      ∧ (bitb ppuW3.status 6 = true → bitb ppuW3'.status 6 = true)
      ∧ bitb ppuW3'.status 5 = bitb ppuW3.status 5) :=
  ⟨by decide, by decide,
    c3_vblank_transition_points ppuW3 ppuW3' (by decide) (by decide) rfl⟩

/-! ## C4: frame geometry -/

/-- C4 counterexample: in the register-silent run, after the 340 ticks
of the first scanline the dot counter has already wrapped to 0 and the
line counter is 1 (the claimed 341-dot line would still be on line 0 at
dot 340), and after 340 * 261 = 88740 ticks the frame has wrapped (the
claimed 262-line frame would still be mid-frame); the line counter never
reaches 261, so there is no pre-render line. -/
theorem c4_counterexample :
    ((ppuColdRun 340).map fun p => (p.cycles, p.lines)) = some (0, 1)
    ∧ ((ppuColdRun 88740).map fun p => (p.cycles, p.lines)) = some (0, 0) := by
  obtain ⟨p1, hr1, hc1, hcy1, hl1⟩ := cold_run 340
  obtain ⟨p2, hr2, hc2, hcy2, hl2⟩ := cold_run 88740
  constructor
  · rw [hr1]
    simp [show p1.cycles = 0 by rw [hcy1], show p1.lines = 1 by rw [hl1]]
  · rw [hr2]
    simp [show p2.cycles = 0 by rw [hcy2], show p2.lines = 0 by rw [hl2]]

/-- C4 (amended): for every in-range PPU state, one tick advances the
dot counter modulo 340 (a scanline is 340 dots, values 0..339) and, on
dot wrap, the line counter modulo 261 (a frame is 261 scanlines, values
0..260); lines 0..239 are the visible lines (dots 1..256 are in Drawing
mode), VBlank mode is entered at dot 0 of line 240, and the tick keeps
the classification of lines 240..260 as VBlank (every step from a state
whose lines at or above 240 are VBlank lands in such a state), so there
is no post-render or pre-render line. -/
theorem c4_frame_geometry (p p' : Ppu)
    (h1 : p.cycles < 340) (h2 : p.lines < 261) (h : p.tick = some p') :
    p'.cycles < 340 ∧ p'.lines < 261
    ∧ p'.cycles = (p.cycles + 1) % 340
    ∧ p'.lines = (if p.cycles + 1 = 340 then (p.lines + 1) % 261 else p.lines)
    ∧ (p.cycles + 1 = 340 ∧ p.lines + 1 = 240 → p'.mode = Mode.vblank)
    ∧ (p'.lines < 240 → 1 ≤ p'.cycles → p'.cycles ≤ 256 → p'.mode = Mode.drawing)
    ∧ ((240 ≤ p.lines → p.mode = Mode.vblank) → 240 ≤ p'.lines → p'.mode = Mode.vblank) := by
  unfold Ppu.tick at h
  dsimp only at h
  split at h
  · exact Option.noConfusion h
  · rename_i bus hbus
    have hd := tickDraw_drawSame
      (Ppu.tickLine (Ppu.tickWrap { p with cycles := p.cycles + 1, bus := bus })) p' h
    have hl := tickLine_same (Ppu.tickWrap { p with cycles := p.cycles + 1, bus := bus })
    have hw := tickWrap_spec { p with cycles := p.cycles + 1, bus := bus }
      (by show 1 ≤ p.cycles + 1; omega) (by show p.cycles + 1 ≤ 340; omega)
      (by show p.lines < 261; omega)
    obtain ⟨hdc, hdl, hdn, hdm, _, _, _, hd7, _, _⟩ := hd
    obtain ⟨hlc, hll, hls, hln, _, _, _⟩ := hl
    obtain ⟨hwc, hwl, _, _, _, hwst, hw7, hwn, hwmv, hwm⟩ := hw
    have ec : p'.cycles = (p.cycles + 1) % 340 := by rw [hdc, hlc, hwc]
    have el : p'.lines = if p.cycles + 1 = 340 then (p.lines + 1) % 261 else p.lines := by
      rw [hdl, hll, hwl]
    refine ⟨?_, ?_, ec, el, ?_, ?_, ?_⟩
    · rw [ec]; exact Nat.mod_lt _ (by omega)
    · rw [el]; split <;> omega
    · rintro ⟨hc, hl240⟩
      rw [hdm, tickLine_mode_not_visible _ ?_]
      · exact hwmv ⟨hc, hl240⟩
      · rw [hwl]
        show ¬ (if p.cycles + 1 = 340 then (p.lines + 1) % 261 else p.lines) < VISIBLE_HEIGHT
        simp [hc, hl240, VISIBLE_HEIGHT]
    · intro hv h1c h2c
      have hWl : (Ppu.tickWrap { p with cycles := p.cycles + 1, bus := bus }).lines
          < VISIBLE_HEIGHT := by
        have hfold : p'.lines
            = (Ppu.tickWrap { p with cycles := p.cycles + 1, bus := bus }).lines :=
          hdl.trans hll
        rw [← hfold]
        simpa [VISIBLE_HEIGHT] using hv
      have hWc1 : 1 ≤ (Ppu.tickWrap { p with cycles := p.cycles + 1, bus := bus }).cycles := by
        have hfold : p'.cycles
            = (Ppu.tickWrap { p with cycles := p.cycles + 1, bus := bus }).cycles :=
          hdc.trans hlc
        rw [← hfold]; exact h1c
      have hWc2 : (Ppu.tickWrap { p with cycles := p.cycles + 1, bus := bus }).cycles ≤ 256 := by
        have hfold : p'.cycles
            = (Ppu.tickWrap { p with cycles := p.cycles + 1, bus := bus }).cycles :=
          hdc.trans hlc
        rw [← hfold]; exact h2c
      rw [hdm, tickLine_mode_drawing _ hWl hWc1 hWc2]
    · intro hmv hge
      have hWge : 240 ≤ (Ppu.tickWrap { p with cycles := p.cycles + 1, bus := bus }).lines := by
        have hfold : p'.lines
            = (Ppu.tickWrap { p with cycles := p.cycles + 1, bus := bus }).lines :=
          hdl.trans hll
        rw [← hfold]; exact hge
      rw [hdm, tickLine_mode_not_visible _ (by simp [VISIBLE_HEIGHT]; omega)]
      exact tickWrap_vblank_lines { p with cycles := p.cycles + 1, bus := bus }
        (by show 1 ≤ p.cycles + 1; omega) (by show p.cycles + 1 ≤ 340; omega)
        (by show p.lines < 261; omega) hmv hWge

/-- C4 concrete state for the witness: dot 100 of line 250 in VBlank. -/
def ppuW4 : Ppu := { ppuEx with cycles := 100, lines := 250, mode := Mode.vblank }

/-- The state one tick after ppuW4. -/
def ppuW4' : Ppu := { ppuEx with cycles := 101, lines := 250, mode := Mode.vblank }

/-- C4 witness: the geometry theorem applied at the concrete state
ppuW4. -/
theorem c4_frame_geometry_witness :
    ppuW4.cycles < 340 ∧ ppuW4.lines < 261
    ∧ (ppuW4'.cycles < 340 ∧ ppuW4'.lines < 261
      ∧ ppuW4'.cycles = (ppuW4.cycles + 1) % 340
      ∧ ppuW4'.lines = (if ppuW4.cycles + 1 = 340 then (ppuW4.lines + 1) % 261 else ppuW4.lines)
      ∧ (ppuW4.cycles + 1 = 340 ∧ ppuW4.lines + 1 = 240 → ppuW4'.mode = Mode.vblank)
      ∧ (ppuW4'.lines < 240 → 1 ≤ ppuW4'.cycles → ppuW4'.cycles ≤ 256
          → ppuW4'.mode = Mode.drawing)
      ∧ ((240 ≤ ppuW4.lines → ppuW4.mode = Mode.vblank)
          → 240 ≤ ppuW4'.lines → ppuW4'.mode = Mode.vblank)) :=
  ⟨by decide, by decide, c4_frame_geometry ppuW4 ppuW4' (by decide) (by decide) rfl⟩

/-! ## C5: sprite-0 hit condition -/

/-- Background scratch line with an opaque sprite-zero-relevant pixel at
x = 10 (palette index 1). -/
def bgLineHit : Nat → Color :=
  fun j => if j = 10 then { value := 1, transparent := false } else Color.default

/-- Sprite scratch line with an opaque sprite-zero pixel at x = 10. -/
def oamLineHit : Nat → OamColor :=
  fun j =>
    if j = 10 then
      { color := { value := 2, transparent := false }, behind := false, zero := true }
    else OamColor.default

/-- Sprite scratch line with a transparent sprite-zero pixel at x = 10. -/
def oamLineMiss : Nat → OamColor :=
  fun j =>
    if j = 10 then { color := Color.default, behind := false, zero := true }
    else OamColor.default

/-- Drawn dot with BG and sprites enabled (MASK = 0x18), an opaque BG
pixel and an opaque sprite-zero pixel at the current x. -/
def ppuHit : Ppu :=
  { ppuEx with mask := 0x18, x := 10, y := 5, mode := Mode.drawing, bgLine := bgLineHit, oamLine := oamLineHit }

/-- Drawn dot with BG and sprites enabled and both the BG pixel and the
sprite-zero pixel transparent at the current x. -/
def ppuMiss : Ppu :=
  { ppuEx with mask := 0x18, x := 10, y := 5, mode := Mode.drawing, oamLine := oamLineMiss }

/-- C5: put_pixels tests transparency the wrong way round: with both
layers enabled, an opaque sprite-zero pixel over an opaque background
pixel leaves STATUS bit 6 clear (the claim requires it set), while a
transparent sprite-zero pixel over a transparent background pixel sets
it (the claim requires it clear). -/
theorem c5_sprite0_condition_inverted :
    (ppuHit.putPixels.map fun s => bitb s.status 6) = some false
    ∧ (ppuMiss.putPixels.map fun s => bitb s.status 6) = some true := by
  constructor
  · rfl
  · decide

/-! ## C6: MMC1 serial load commit target -/

/-- An Mmc1 register file with everything zeroed (Mmc1::new). -/
def mmc1RegsEx : Mmc1Regs :=
  { latch := 0, counter := 0, control := 0, chrBank0 := 0, chrBank1 := 0, prgBank := 0 }

/-- Five serial writes to the same address. -/
def mmc1Load5 (addr : Nat) (ds : List Nat) : Mmc1Regs :=
  ds.foldl (fun m d => m.writeLoad addr d) mmc1RegsEx

/-- C6: the claim's worked example holds (five writes of 01 00 01 00 00
to 0x8000 commit 0x14 to Control, and a write with bit 7 set resets the
shifter), but the register is selected by addr AND 0b01100000 - bits 5
and 6, not bits 13 and 14 - so the fifth write to 0xE000 also commits to
Control (0xE000 AND 0x60 = 0) and leaves the PRG Bank register at 0,
where the claim requires the value to land in PRG Bank. -/
theorem c6_mmc1_commit_selected_by_low_bits :
    (mmc1Load5 0x8000 [1, 0, 1, 0, 0]).control = 0x14
    ∧ (mmc1Load5 0xE000 [1, 1, 1, 1, 1]).control = 0x1F
    ∧ (mmc1Load5 0xE000 [1, 1, 1, 1, 1]).prgBank = 0
    ∧ ((mmc1RegsEx.writeLoad 0x8000 1).writeLoad 0x8000 0x80).latch = 0
    ∧ ((mmc1RegsEx.writeLoad 0x8000 1).writeLoad 0x8000 0x80).counter = 0 := by
  decide

/-! ## C7: OAMDATA register -/

/-- A PPU bus with OAM[5] = 0x42 over the fresh state. -/
def ppuBusOamEx : PpuBus := { ppuEx.bus with oam := upd ppuEx.bus.oam 5 0x42 }

/-- A CPU bus whose PPU has OAMADDR = 5 and OAM[5] = 0x42. -/
def busOamEx : CpuBus :=
  { busEx with ppu := { ppuEx with oamAddr := 5, bus := ppuBusOamEx } }

/-- C7: a CPU-bus read of 0x2004 returns 0 (Ppu::read_oam_data is a TODO
stub), not OAM[OAMADDR] = 0x42 as the claim states; a write to 0x2004
does store into OAM[OAMADDR] but leaves OAMADDR at 5 instead of
incrementing it. -/
theorem c7_oamdata_stub_and_no_increment :
    ((busOamEx.read 0x2004).map fun r => r.1) = some 0
    ∧ (busOamEx.write 0x2004 0x99).ppu.bus.oam 5 = 0x99
    ∧ (busOamEx.write 0x2004 0x99).ppu.oamAddr = 5 := by
  refine ⟨rfl, rfl, rfl⟩

/-! ## C8: stack pushes -/

/-- The CPU with the stack pointer at 0x00. -/
def cpuS0 : Cpu := { cpuEx with s := 0 }

/-- C8: an 8-bit push at S = 0x00 behaves as the claim states (write to
0x0100, S becomes 0xFF), but Cpu::push_16 decrements S first and then
writes a plain little-endian word at 0x0100 + S, so with S = 0x00 the
low byte lands at 0x01FF and the high byte at 0x0200 - outside the
0x0100..0x01FF stack page (work RAM is preloaded with the low byte of
each address, so 0x0100 still holding 0x00 shows the high byte did not
wrap there). -/
theorem c8_push16_escapes_stack_page :
    (cpuS0.push8 0x42).s = 0xFF
    ∧ (cpuS0.push8 0x42).bus.wram 0x0100 = 0x42
    ∧ (cpuS0.push16 0xABCD).s = 0xFE
    ∧ (cpuS0.push16 0xABCD).bus.wram 0x01FF = 0xCD
    ∧ (cpuS0.push16 0xABCD).bus.wram 0x0200 = 0xAB
    ∧ (cpuS0.push16 0xABCD).bus.wram 0x0100 = 0x00 := by
  refine ⟨rfl, rfl, rfl, rfl, rfl, rfl⟩

/-! ## C9: unknown opcodes and STP -/

/-- C9: the decoder's final logging arm is dead code (no opcode in
0..255 decodes to unknown: the bitmatch arms cover the whole opcode
space), and the STP opcodes 0x02 and 0x12 dispatch to Cpu::stp, whose
body is an unconditional unimplemented! panic - the CPU never enters a
resumable halted state. -/
theorem c9_stp_panics_and_no_unknown_opcode :
    cpuDecode 0x02 = Mnem.stp
    ∧ cpuDecode 0x12 = Mnem.stp
    ∧ ((List.range 256).filter fun op => (cpuDecode op).isUnknown) = []
    ∧ Cpu.stp cpuEx = none := by
  refine ⟨rfl, rfl, by decide, rfl⟩

/-! ## C10: reads of the write-only PPU ports -/

/-- C10: every CPU-bus address in 0x2000..0x3FFF that folds to the
write-only ports 0x2003 (OAMADDR), 0x2005 (SCROLL) or 0x2006 (VRAMADDR)
reads as 0 through the mapper fallthrough arm, with the whole bus state
(PPU, mapper, RAM, counters) returned unchanged. -/
theorem c10_write_only_ports_read_zero (b : CpuBus) (addr : Nat)
    (h1 : 0x2000 ≤ addr) (h2 : addr ≤ 0x3FFF)
    (h3 : CpuBus.fold addr = 0x2003 ∨ CpuBus.fold addr = 0x2005 ∨ CpuBus.fold addr = 0x2006) :
    b.read addr = some (0, b) := by
  have hlow : ∀ (m : Mmc) (a : Nat), a < 0x6000 → m.readCpu a = some 0 := by
    intro m a ha
    cases m with
    | mmc0 rom prgRam =>
      simp [Mmc.readCpu, show ¬ (rom.prgSize ≤ 0x4000 ∧ 0xC000 ≤ a) by omega,
        show ¬ (0x6000 ≤ a ∧ a ≤ 0x7FFF) by omega, show ¬ (0x8000 ≤ a ∧ a ≤ 0xFFFF) by omega]
    | mmc1 rom prgRam regs =>
      simp [Mmc.readCpu, show ¬ (0x6000 ≤ a ∧ a ≤ 0x7FFF) by omega,
        show ¬ (0x8000 ≤ a ∧ a ≤ 0xFFFF) by omega]
  rcases h3 with h | h | h
  · simp [CpuBus.read, h, CpuBus.isApuReg, hlow b.ppu.bus.mmc 0x2003 (by norm_num)]
  · simp [CpuBus.read, h, CpuBus.isApuReg, hlow b.ppu.bus.mmc 0x2005 (by norm_num)]
  · simp [CpuBus.read, h, CpuBus.isApuReg, hlow b.ppu.bus.mmc 0x2006 (by norm_num)]

/-- C10 witness: the theorem applied at the fresh bus and address 0x2003
(which folds to itself). -/
theorem c10_write_only_ports_read_zero_witness :
    (0x2000 ≤ 0x2003 ∧ 0x2003 ≤ 0x3FFF ∧ CpuBus.fold 0x2003 = 0x2003)
    ∧ busEx.read 0x2003 = some (0, busEx) :=
  ⟨⟨by decide, by decide, by decide⟩,
    c10_write_only_ports_read_zero busEx 0x2003 (by decide) (by decide) (Or.inl (by decide))⟩

end Rnes
